import Mathlib

/-!
# Authentication core of the landing-page backend

A shallow embedding of `src/middleware/validation.js`, `src/middleware/errorHandler.js`,
`src/utils/jwt.js` and the `/login` and `/register` handlers of `src/routes/publicAuth.js`.

JavaScript values are embedded as `JsVal`; numbers are integers (the handlers only
produce status codes, lengths and clock readings, all integral). Strings are Lean
strings whose characters are Unicode scalar values; `jsLength` counts UTF-16 code
units, which is what `.length` reads. Calls that leave the repository (the store
client, the password hasher, the clock, the timer, `console.error`) are operations
of a `World` on an abstract state, and every handler returns the list of such
calls it made next to its response.
-/

namespace Coddy

/-! ## JavaScript values -/

/-- A JavaScript value: what a JSON body, a store row or a thrown error can hold.
An object is the list of its own properties in insertion order, its keys distinct. -/
inductive JsVal where
  | undefined
  | null
  | bool (b : Bool)
  | num (n : Int)
  | str (s : String)
  | arr (items : List JsVal)
  | obj (fields : List (String × JsVal))

namespace JsVal

instance : Inhabited JsVal := ⟨JsVal.undefined⟩

/-- The truthiness test behind `!v`, `a || b` and `if (v)`. -/
def truthy : JsVal → Bool
  | undefined => false
  | null => false
  | bool b => b
  | num n => n != 0
  | str s => s != ""
  | arr _ => true
  | obj _ => true

/-- The value of `a || b`. -/
def orElse (a b : JsVal) : JsVal := if a.truthy then a else b

/-- The first binding of a key in a field list, `undefined` when there is none. -/
def lookupField : List (String × JsVal) → String → JsVal
  | [], _ => undefined
  | (k, v) :: rest, key => if k = key then v else lookupField rest key

/-- The number of UTF-16 code units of a string, the value of `s.length`. -/
def jsLength (s : String) : Nat :=
  (s.data.map (fun c => if c.val < 0x10000 then 1 else 2)).sum

/-- Property read `v.key` (or `v[key]`) on a value that is not `null` or `undefined`:
own properties of objects, `length` of strings and arrays, `undefined` otherwise. -/
def get (v : JsVal) (key : String) : JsVal :=
  match v with
  | obj fields => lookupField fields key
  | str s => if key = "length" then num (jsLength s) else undefined
  | arr items => if key = "length" then num items.length else undefined
  | _ => undefined

/-- Whether a value is `null` or `undefined`, on which a property read throws. -/
def isNullish : JsVal → Bool
  | undefined => true
  | null => true
  | _ => false

mutual
/-- The string `String(v)` gives. -/
def jsToString : JsVal → String
  | undefined => "undefined"
  | null => "null"
  | bool b => if b then "true" else "false"
  | num n => toString n
  | str s => s
  | arr items => ",".intercalate (joinItems items)
  | obj _ => "[object Object]"
/-- The pieces `Array.prototype.join` glues with commas: `null` and `undefined`
items are empty. -/
def joinItems : List JsVal → List String
  | [] => []
  | v :: vs => (if v.isNullish then "" else jsToString v) :: joinItems vs
end

/-- The number `Number(v)` gives, `none` for `NaN`. Reading a number out of a string
is the runtime's `parseNum`; arrays and objects go through their string. -/
def jsToNumber (parseNum : String → Option Int) : JsVal → Option Int
  | undefined => none
  | null => some 0
  | bool b => some (if b then 1 else 0)
  | num n => some n
  | str s => parseNum s
  | v => parseNum (jsToString v)

/-- The comparison `a < b` on numbers; `false` as soon as one side is `NaN`. -/
def numLt : Option Int → Option Int → Bool
  | some a, some b => decide (a < b)
  | _, _ => false

/-- Whether a value is the given string, as `v === 'text'` tests. -/
def isString (v : JsVal) (text : String) : Bool :=
  match v with
  | str s => s = text
  | _ => false

/-- Whether a key is bound in a field list. -/
def hasKey (fields : List (String × JsVal)) (key : String) : Bool :=
  fields.any (fun kv => kv.1 = key)

/-- Assignment `o.key = v`: the binding is overwritten in place, or added last. -/
def setField : List (String × JsVal) → String → JsVal → List (String × JsVal)
  | [], key, v => [(key, v)]
  | (k, w) :: rest, key, v =>
    if k = key then (k, v) :: rest else (k, w) :: setField rest key v

mutual
/-- The value `JSON.parse(JSON.stringify(v))` gives back: object fields holding
`undefined` are dropped, `undefined` array items become `null`. -/
def jsonClone : JsVal → JsVal
  | arr items => arr (jsonCloneItems items)
  | obj fields => obj (jsonCloneFields fields)
  | v => v
/-- The items of a cloned array. -/
def jsonCloneItems : List JsVal → List JsVal
  | [] => []
  | v :: vs => (if v.isNullish then null else jsonClone v) :: jsonCloneItems vs
/-- The fields of a cloned object. -/
def jsonCloneFields : List (String × JsVal) → List (String × JsVal)
  | [] => []
  | (k, v) :: rest =>
    match v with
    | undefined => jsonCloneFields rest
    | w => (k, jsonClone w) :: jsonCloneFields rest
end

end JsVal

open JsVal

/-- An error object with the two properties the code reads, `name` and `message`. -/
def mkError (name msg : String) : JsVal :=
  obj [("name", str name), ("message", str msg)]

/-- The `TypeError` a property read on `null` or `undefined` throws. -/
def typeError (msg : String) : JsVal := mkError "TypeError" msg

/-- Property read that throws on `null` and `undefined`, as `v.key` does. -/
def getProp (v : JsVal) (key : String) : Except JsVal JsVal :=
  if v.isNullish then .error (typeError ("Cannot read properties of " ++ key))
  else .ok (v.get key)

/-! ## `src/middleware/validation.js` -/

/-- The characters `String.prototype.trim` strips: WhiteSpace and LineTerminator. -/
def isJsSpace (c : Char) : Bool :=
  let n := c.toNat
  n = 0x09 || n = 0x0A || n = 0x0B || n = 0x0C || n = 0x0D || n = 0x20 || n = 0xA0
    || n = 0x1680 || (0x2000 ≤ n && n ≤ 0x200A) || n = 0x2028 || n = 0x2029
    || n = 0x202F || n = 0x205F || n = 0x3000 || n = 0xFEFF

/-- The characters of `s.trim()`. -/
def trimChars (cs : List Char) : List Char :=
  ((cs.dropWhile isJsSpace).reverse.dropWhile isJsSpace).reverse

/-- The value of `s.trim()`. -/
def jsTrim (s : String) : String := ⟨trimChars s.data⟩

/-- What `validator.escape` writes for one character: the eight replacements
`&`, `"`, the apostrophe, `<`, `>`, `/`, the backslash and the backtick. -/
def escapeChar (c : Char) : List Char :=
  let n := c.toNat
  if n = 0x26 then "&amp;".data
  else if n = 0x22 then "&quot;".data
  else if n = 0x27 then "&#x27;".data
  else if n = 0x3C then "&lt;".data
  else if n = 0x3E then "&gt;".data
  else if n = 0x2F then "&#x2F;".data
  else if n = 0x5C then "&#x5C;".data
  else if n = 0x60 then "&#96;".data
  else [c]

/-- The value of `validator.escape(s)`. -/
def validatorEscape (s : String) : String := ⟨s.data.flatMap escapeChar⟩

/-- `sanitizeInput`: strings are trimmed and escaped, other values pass through. -/
def sanitizeInput (input : JsVal) : JsVal :=
  match input with
  | str s => str (validatorEscape (jsTrim s))
  | v => v

/-- `isValidEmail`: `validator.isEmail`, whose grammar check is the parameter
`isEmail`; the library throws a `TypeError` when its argument is not a string. -/
def isValidEmail (isEmail : String → Bool) (email : JsVal) : Except JsVal Bool :=
  match email with
  | str s => .ok (isEmail s)
  | _ => .error (typeError "Expected a string")

/-- Character class `[a-z]`. -/
def isLowerAZ (c : Char) : Bool := 0x61 ≤ c.toNat && c.toNat ≤ 0x7A

/-- Character class `[A-Z]`. -/
def isUpperAZ (c : Char) : Bool := 0x41 ≤ c.toNat && c.toNat ≤ 0x5A

/-- Character class `\d`, which is `[0-9]`. -/
def isDigit09 (c : Char) : Bool := 0x30 ≤ c.toNat && c.toNat ≤ 0x39

/-- Character class `[@$!%*?&]`. -/
def isSpecial (c : Char) : Bool :=
  let n := c.toNat
  n = 0x40 || n = 0x24 || n = 0x21 || n = 0x25 || n = 0x2A || n = 0x3F || n = 0x26

/-- Character class `[A-Za-z\d@$!%*?&]`. -/
def isPasswordChar (c : Char) : Bool :=
  isUpperAZ c || isLowerAZ c || isDigit09 c || isSpecial c

/-- The line terminators, which `.` does not match. -/
def isLineTerminator (c : Char) : Bool :=
  let n := c.toNat
  n = 0x0A || n = 0x0D || n = 0x2028 || n = 0x2029

/-- The lookahead `(?=.*C)` at the head of `cs`: some character of class `C`
is reachable over characters that `.` matches. -/
def lookahead (cls : Char → Bool) : List Char → Bool
  | [] => false
  | c :: cs => cls c || (!isLineTerminator c && lookahead cls cs)

/-- The pattern
`/^(?=.*[a-z])(?=.*[A-Z])(?=.*\d)(?=.*[@$!%*?&])[A-Za-z\d@$!%*?&]{8,}$/`
tested on the characters of a string: four lookaheads at the start, then a run of
at least eight class characters that reaches the end of the input. -/
def passwordRegexTest (cs : List Char) : Bool :=
  lookahead isLowerAZ cs && lookahead isUpperAZ cs && lookahead isDigit09 cs
    && lookahead isSpecial cs && (cs.all isPasswordChar && decide (8 ≤ cs.length))

/-- `isValidPassword`: `passwordRegex.test(password)`, which tests the string of
its argument. -/
def isValidPassword (password : JsVal) : Bool :=
  passwordRegexTest (jsToString password).data

/-! ## `src/middleware/errorHandler.js` -/

/-- What a handler sends: `res.status(status).json(body)`. -/
structure Response where
  status : JsVal
  body : JsVal

/-- The envelope `{ status: 'error', code, message }` of the error responses. -/
def errorBody (code : Int) (message : String) : JsVal :=
  obj [("status", str "error"), ("code", num code), ("message", str message)]

/-- An error response whose HTTP status and `code` field agree. -/
def errorResponse (code : Int) (message : String) : Response :=
  ⟨num code, errorBody code message⟩

/-- `errorHandler(err, req, res, next)` under a value of `process.env.NODE_ENV`
(`none` when the variable is unset). The message is the fixed text when the
environment is `production` and `err.message || 'Internal Server Error'` otherwise;
the spread adds `stack` when the environment is `development`. Reading a property
of a `null` or `undefined` error throws. The `console.error` line only logs. -/
def errorHandler (nodeEnv : Option String) (err : JsVal) : Except JsVal Response := do
  let status := (← getProp err "status").orElse (num 500)
  let message := (← getProp err "message").orElse (str "Internal Server Error")
  let stack ← getProp err "stack"
  let response := obj ([("status", str "error"), ("code", status),
      ("message", if nodeEnv = some "production"
        then str "An error occurred. Please try again later." else message)]
    ++ (if nodeEnv = some "development" then [("stack", stack)] else []))
  return ⟨status, response⟩

/-! ## `src/utils/jwt.js`

The compact serialisation of a token (three base64url segments) is abstracted: a
well-formed token is the value `{ header, payload, signature }` and every other
value is a malformed token. The keyed hash is the parameter `hmac`. -/

/-- The process-wide token configuration: `JWT_SECRET`, and the number of seconds
the timespan `JWT_EXPIRES_IN` stands for (`'7d'` is 604800), `none` when the
library cannot read the configured timespan. -/
structure JwtConfig where
  secret : String
  expiresIn : Option Int

/-- The protected header `jwt.sign` writes for an object payload under `HS256`. -/
def jwtHeader : JsVal := obj [("alg", str "HS256"), ("typ", str "JWT")]

/-- A signed token over a header and a payload. -/
def mkToken (hmac : String → JsVal → JsVal → String) (secret : String)
    (header payload : JsVal) : JsVal :=
  obj [("header", header), ("payload", payload),
    ("signature", str (hmac secret header payload))]

/-- Whether a registered claim, when its key is present, holds a number. -/
def claimIsNumberIfPresent (fields : List (String × JsVal)) (key : String) : Bool :=
  !hasKey fields key ||
    (match lookupField fields key with
     | num _ => true
     | _ => false)

/-- `jwt.sign(payload, secret, { expiresIn, algorithm: 'HS256' })` at clock reading
`now` (milliseconds). The payload must be a plain object whose `iat`, `exp` and `nbf`,
when present, are numbers, and must not define `exp` next to the `expiresIn` option;
`iat` becomes `payload.iat || floor(now / 1000)` and `exp` is `iat` plus the
configured span. The payload travels as JSON. -/
def jwtSign (hmac : String → JsVal → JsVal → String) (cfg : JwtConfig)
    (payload : JsVal) (now : Int) : Except JsVal JsVal :=
  match payload with
  | obj fields =>
    if !(claimIsNumberIfPresent fields "iat" && claimIsNumberIfPresent fields "exp"
        && claimIsNumberIfPresent fields "nbf") then
      .error (mkError "Error" "registered claim should be a number of seconds")
    else
      match lookupField fields "exp" with
      | undefined =>
        let timestamp := (lookupField fields "iat").orElse (num (Int.fdiv now 1000))
        match cfg.expiresIn, timestamp with
        | some span, num t =>
          .ok (mkToken hmac cfg.secret jwtHeader
            (jsonClone (obj (setField (setField fields "iat" (num t)) "exp" (num (t + span))))))
        | _, _ => .error (mkError "Error" "expiresIn should be a number of seconds or string representing a timespan")
      | _ => .error (mkError "Error" "Bad options.expiresIn option the payload already has an exp property.")
  | undefined => .error (mkError "Error" "payload is required")
  | _ => .error (mkError "Error" "invalid payload for the expiresIn option")

/-- `generateToken`: `jwt.sign`, any failure replaced by one fixed error. -/
def generateToken (hmac : String → JsVal → JsVal → String) (cfg : JwtConfig)
    (payload : JsVal) (now : Int) : Except JsVal JsVal :=
  match jwtSign hmac cfg payload now with
  | .ok token => .ok token
  | .error _ => .error (mkError "Error" "Failed to generate authentication token")

/-- The three parts of a well-formed token, `none` for a malformed one. -/
def jwtParts (token : JsVal) : Option (JsVal × JsVal × String) :=
  match token with
  | obj [("header", header), ("payload", payload), ("signature", str sig)] =>
    some (header, payload, sig)
  | _ => none

/-- `jwt.decode(token)`: the payload, unverified, `null` for a malformed token. -/
def jwtDecode (token : JsVal) : JsVal :=
  match jwtParts token with
  | some (_, payload, _) => payload
  | none => null

/-- `jwt.verify(token, secret, { algorithms: ['HS256'] })` at clock reading `now`:
structure, algorithm and signature, then `nbf` and `exp` against
`floor(now / 1000)`; the payload is returned. -/
def jwtVerify (hmac : String → JsVal → JsVal → String) (secret : String)
    (token : JsVal) (now : Int) : Except JsVal JsVal :=
  match jwtParts token with
  | none => .error (mkError "JsonWebTokenError" "jwt malformed")
  | some (header, payload, sig) =>
    if (header.get "alg").isString "HS256" then
      if sig = hmac secret header payload then do
        let clock := Int.fdiv now 1000
        let nbf ← getProp payload "nbf"
        match nbf with
        | undefined => pure ()
        | num n => if n > clock then throw (mkError "NotBeforeError" "jwt not active")
        | _ => throw (mkError "JsonWebTokenError" "invalid nbf value")
        let exp ← getProp payload "exp"
        match exp with
        | undefined => pure ()
        | num e => if clock ≥ e then throw (mkError "TokenExpiredError" "jwt expired")
        | _ => throw (mkError "JsonWebTokenError" "invalid exp value")
        return payload
      else .error (mkError "JsonWebTokenError" "invalid signature")
    else .error (mkError "JsonWebTokenError" "invalid algorithm")

/-- `verifyToken`: `jwt.verify`, with the two library errors renamed and every
other error rethrown. -/
def verifyToken (hmac : String → JsVal → JsVal → String) (cfg : JwtConfig)
    (token : JsVal) (now : Int) : Except JsVal JsVal :=
  match jwtVerify hmac cfg.secret token now with
  | .ok claims => .ok claims
  | .error e =>
    if (e.get "name").isString "TokenExpiredError" then
      .error (mkError "Error" "Token has expired")
    else if (e.get "name").isString "JsonWebTokenError" then
      .error (mkError "Error" "Invalid token")
    else .error e

/-- The composition `verifyToken(generateToken(claims))`, both at clock reading
`now`; an error thrown by `generateToken` propagates. -/
def verifyGenerated (hmac : String → JsVal → JsVal → String) (cfg : JwtConfig)
    (claims : JsVal) (now : Int) : Except JsVal JsVal :=
  match generateToken hmac cfg claims now with
  | .ok token => verifyToken hmac cfg token now
  | .error e => .error e

/-- `decodeToken`: `jwt.decode`, which yields `null` where it cannot decode. -/
def decodeToken (token : JsVal) : JsVal := jwtDecode token

/-- `isTokenExpired` at clock reading `now` (milliseconds): `true` when nothing
decodes or `exp` is falsy, else `decoded.exp * 1000 < Date.now()`. Nothing in the
block throws on these values, so its `catch` is never entered. -/
def isTokenExpired (parseNum : String → Option Int) (token : JsVal) (now : Int) : Bool :=
  let decoded := jwtDecode token
  if !decoded.truthy || !(decoded.get "exp").truthy then true
  else numLt ((jsToNumber parseNum (decoded.get "exp")).map (· * 1000)) (some now)

/-! ## The world outside the repository -/

/-- What an awaited store query resolves to: the pair `{ data, error }`. -/
structure QueryResult where
  data : JsVal
  error : JsVal

/-- The collaborators of the handlers over a state `σ`. An awaited call yields a
value or throws, and leaves a new state; the clock is read from the state.
`isEmail`, `toLowerCase`, `parseNum` and `hmac` are functions of the runtime and of
the libraries (`validator.isEmail`, `String.prototype.toLowerCase`, the number a
string converts to, HMAC-SHA256). -/
structure World (σ : Type) where
  /-- Whether `supabaseService` is a client rather than `null`. -/
  configured : Bool
  /-- The grammar check `validator.isEmail` on strings. -/
  isEmail : String → Bool
  /-- The empty string is not an email address for `validator.isEmail`. -/
  isEmail_empty : isEmail "" = false
  toLowerCase : String → String
  parseNum : String → Option Int
  hmac : String → JsVal → JsVal → String
  /-- The reading `Date.now()`, in milliseconds. -/
  dateNow : σ → Int
  /-- The string `new Date().toISOString()`. -/
  isoNow : σ → String
  /-- The query `from('users').select(columns).eq('email', email).single()`, the
  comma-separated column string given as the list of its column names. -/
  selectUser : List String → JsVal → σ → Except JsVal QueryResult × σ
  /-- The query `from('users').update(patch).eq('id', id)`. -/
  updateUser : JsVal → JsVal → σ → Except JsVal QueryResult × σ
  /-- The query `from('users').insert(row).select(columns).single()`. -/
  insertUser : JsVal → List String → σ → Except JsVal QueryResult × σ
  /-- The call `comparePassword(plaintext, hashValue)` of `utils/password.js`, a
  file that is not among the sources: it answers a boolean, or throws. -/
  comparePassword : JsVal → JsVal → σ → Except JsVal Bool × σ
  /-- The call `hashPassword(plaintext)` of `utils/password.js`, a file that is
  not among the sources: it answers a hash value, or throws. -/
  hashPassword : JsVal → σ → Except JsVal JsVal × σ
  /-- The wait `await new Promise(resolve => setTimeout(resolve, ms))`. -/
  sleep : Int → σ → σ

/-- A call a handler makes to a collaborator, or to a function the claims watch. -/
inductive Call where
  | selectUser (columns : List String) (email : JsVal)
  | sleep (ms : Int)
  | comparePassword (plaintext hash : JsVal)
  | hashPassword (plaintext : JsVal)
  | generateToken (payload : JsVal)
  | updateUser (patch id : JsVal)
  | insertUser (row : JsVal) (columns : List String)
  | consoleError (label : String) (err : JsVal)

/-- How a handler ends: a response was sent, or its promise rejected with an error
that `asyncHandler` hands to `next`. -/
inductive Outcome where
  | sent (r : Response)
  | rejected (err : JsVal)

/-- A run of a handler: how it ended, the calls it made in order, the state left. -/
structure Run (σ : Type) where
  outcome : Outcome
  calls : List Call
  state : σ

/-- `validateRequest(requiredFields)`: the 400 response listing the fields whose
value in the body is falsy, or `none` when the request goes on to the handler.
Reading a field of a `null` or `undefined` body throws. -/
def validateRequest (requiredFields : List String) (body : JsVal) :
    Except JsVal (Option Response) :=
  if body.isNullish && !requiredFields.isEmpty then
    .error (typeError "Cannot read properties of the body")
  else
    let errors := (requiredFields.filter (fun field => !(body.get field).truthy)).map
      (fun field => str ("Missing required field: " ++ field))
    if errors.length > 0 then
      .ok (some ⟨num 400, obj [("status", str "error"), ("code", num 400),
        ("message", str "Validation failed"), ("errors", arr errors)]⟩)
    else .ok none

/-- The method call `v.toLowerCase()`: defined on strings, a `TypeError` on every
other value. -/
def callToLowerCase (toLowerCase : String → String) (v : JsVal) : Except JsVal JsVal :=
  match v with
  | str s => .ok (str (toLowerCase s))
  | _ => .error (typeError "toLowerCase is not a function")

/-- The `catch` block that closes a handler's `try`: a response of the block is
sent as it is; a thrown error is logged under `label` and answered 500 with the
handler's fixed message. -/
def catchAll {σ : Type} (label message : String)
    (r : Except JsVal Response × List Call × σ) : Run σ :=
  match r with
  | (.ok resp, calls, s) => ⟨.sent resp, calls, s⟩
  | (.error e, calls, s) =>
    ⟨.sent (errorResponse 500 message), calls ++ [Call.consoleError label e], s⟩

/-! ## `POST /login` of `src/routes/publicAuth.js` -/

/-- The columns the login lookup selects: `'id, email, password, role, name, is_active'`. -/
def loginColumns : List String := ["id", "email", "password", "role", "name", "is_active"]

/-- The wait of the not-found branch: `Math.max(0, 1000 - elapsed)`. -/
def loginDelay (elapsed : Int) : Int := max 0 (1000 - elapsed)

/-- The claims both handlers sign: `{ id, email, role, name, type: 'auth' }`. -/
def authClaims (user : JsVal) : JsVal :=
  obj [("id", user.get "id"), ("email", user.get "email"), ("role", user.get "role"),
    ("name", user.get "name"), ("type", str "auth")]

/-- The public projection `{ id, email, name, role }` of a user row. -/
def publicUser (user : JsVal) : JsVal :=
  obj [("id", user.get "id"), ("email", user.get "email"), ("name", user.get "name"),
    ("role", user.get "role")]

/-- The 200 response of a login. -/
def loginSuccess (token user : JsVal) : Response :=
  ⟨num 200, obj [("status", str "success"),
    ("data", obj [("token", token), ("user", publicUser user)])]⟩

/-- The body of the `try` block of the login handler: the response it sends or the
error it throws, the calls made, the state left. -/
def loginTry {σ : Type} (W : World σ) (cfg : JwtConfig) (email password : JsVal)
    (startTime : Int) (st : σ) : Except JsVal Response × List Call × σ :=
  match callToLowerCase W.toLowerCase email with
  | .error e => (.error e, [], st)
  | .ok lowered =>
    let c1 := [Call.selectUser loginColumns lowered]
    match W.selectUser loginColumns lowered st with
    | (.error e, s1) => (.error e, c1, s1)
    | (.ok q, s1) =>
      if q.error.truthy || !q.data.truthy then
        let elapsed := W.dateNow s1 - startTime
        let delay := loginDelay elapsed
        (.ok (errorResponse 401 "Invalid email or password"),
          c1 ++ [Call.sleep delay], W.sleep delay s1)
      else
        let user := q.data
        if !(user.get "is_active").truthy then
          (.ok (errorResponse 403 "Account is disabled. Contact support."), c1, s1)
        else
          let c2 := c1 ++ [Call.comparePassword password (user.get "password")]
          match W.comparePassword password (user.get "password") s1 with
          | (.error e, s2) => (.error e, c2, s2)
          | (.ok passwordMatch, s2) =>
            if !passwordMatch then
              (.ok (errorResponse 401 "Invalid email or password"), c2, s2)
            else
              let c3 := c2 ++ [Call.generateToken (authClaims user)]
              match generateToken W.hmac cfg (authClaims user) (W.dateNow s2) with
              | .error e => (.error e, c3, s2)
              | .ok token =>
                let patch := obj [("last_login", str (W.isoNow s2))]
                let c4 := c3 ++ [Call.updateUser patch (user.get "id")]
                match W.updateUser patch (user.get "id") s2 with
                | (.error e, s3) => (.error e, c4, s3)
                | (.ok _, s3) => (.ok (loginSuccess token user), c4, s3)

/-- The handler of `POST /login`, after `validateRequest`. -/
def loginHandler {σ : Type} (W : World σ) (cfg : JwtConfig) (body : JsVal) (st : σ) :
    Run σ :=
  if body.isNullish then
    ⟨.rejected (typeError "Cannot destructure the body"), [], st⟩
  else
    let email := body.get "email"
    let password := body.get "password"
    if !W.configured then
      ⟨.sent (errorResponse 503
        "Database service not configured. Please add Supabase credentials."), [], st⟩
    else
      match isValidEmail W.isEmail email with
      | .error e => ⟨.rejected e, [], st⟩
      | .ok false => ⟨.sent (errorResponse 400 "Invalid email format"), [], st⟩
      | .ok true =>
        let startTime := W.dateNow st
        catchAll "Login error:" "Login failed. Please try again later."
          (loginTry W cfg email password startTime st)

/-! ## `POST /register` of `src/routes/publicAuth.js` -/

/-- The columns the insert selects back: `'id, email, name, role'`. -/
def registerColumns : List String := ["id", "email", "name", "role"]

/-- The row `register` inserts. -/
def newUserRow (email hashedPassword name : JsVal) (createdAt : String) : JsVal :=
  obj [("email", email), ("password", hashedPassword), ("name", name),
    ("role", str "student"), ("is_active", bool true), ("created_at", str createdAt)]

/-- The 201 response of a registration. -/
def registerSuccess (token newUser : JsVal) : Response :=
  ⟨num 201, obj [("status", str "success"), ("message", str "Account created successfully"),
    ("data", obj [("token", token), ("user", publicUser newUser)])]⟩

/-- The body of the `try` block of the register handler. -/
def registerTry {σ : Type} (W : World σ) (cfg : JwtConfig) (email password name : JsVal)
    (st : σ) : Except JsVal Response × List Call × σ :=
  let c1 := [Call.selectUser ["id"] email]
  match W.selectUser ["id"] email st with
  | (.error e, s1) => (.error e, c1, s1)
  | (.ok existing, s1) =>
    if existing.data.truthy then
      (.ok (errorResponse 409
        "Email already registered. Please use another email or login."), c1, s1)
    else
      let c2 := c1 ++ [Call.hashPassword password]
      match W.hashPassword password s1 with
      | (.error e, s2) => (.error e, c2, s2)
      | (.ok hashedPassword, s2) =>
        let row := newUserRow email hashedPassword name (W.isoNow s2)
        let c3 := c2 ++ [Call.insertUser row registerColumns]
        match W.insertUser row registerColumns s2 with
        | (.error e, s3) => (.error e, c3, s3)
        | (.ok inserted, s3) =>
          if inserted.error.truthy then
            (.error inserted.error,
              c3 ++ [Call.consoleError "User creation error:" inserted.error], s3)
          else if inserted.data.isNullish then
            (.error (typeError "Cannot read properties of the new user"), c3, s3)
          else
            let newUser := inserted.data
            let c4 := c3 ++ [Call.generateToken (authClaims newUser)]
            match generateToken W.hmac cfg (authClaims newUser) (W.dateNow s3) with
            | .error e => (.error e, c4, s3)
            | .ok token => (.ok (registerSuccess token newUser), c4, s3)

/-- The handler of `POST /register`, after `validateRequest`. -/
def registerHandler {σ : Type} (W : World σ) (cfg : JwtConfig) (body : JsVal) (st : σ) :
    Run σ :=
  if body.isNullish then
    ⟨.rejected (typeError "Cannot destructure the body"), [], st⟩
  else
    let rawEmail := body.get "email"
    let password := body.get "password"
    let rawName := body.get "name"
    if !W.configured then
      ⟨.sent (errorResponse 503
        "Database service not configured. Please add Supabase credentials."), [], st⟩
    else
      match callToLowerCase W.toLowerCase (sanitizeInput rawEmail) with
      | .error e => ⟨.rejected e, [], st⟩
      | .ok email =>
        let name := sanitizeInput rawName
        match isValidEmail W.isEmail email with
        | .error e => ⟨.rejected e, [], st⟩
        | .ok false => ⟨.sent (errorResponse 400 "Invalid email format"), [], st⟩
        | .ok true =>
          if !isValidPassword password then
            ⟨.sent (errorResponse 400
              "Password must be at least 8 characters with uppercase, number, and special character"),
              [], st⟩
          else
            match getProp name "length" with
            | .error e => ⟨.rejected e, [], st⟩
            | .ok len =>
              if numLt (jsToNumber W.parseNum len) (some 3)
                  || numLt (some 100) (jsToNumber W.parseNum len) then
                ⟨.sent (errorResponse 400 "Name must be between 3 and 100 characters"), [], st⟩
              else
                catchAll "Registration error:" "Registration failed. Please try again later."
                  (registerTry W cfg email password name st)

/-! ## The routes: `validateRequest`, the handler, `errorHandler` -/

/-- A route of the router: the required-field middleware, then the handler under
`asyncHandler`, whose rejection reaches `errorHandler`. -/
def route {σ : Type} (nodeEnv : Option String) (requiredFields : List String)
    (handler : JsVal → σ → Run σ) (body : JsVal) (st : σ) : Run σ :=
  match validateRequest requiredFields body with
  | .error e =>
    match errorHandler nodeEnv e with
    | .ok r => ⟨.sent r, [], st⟩
    | .error e2 => ⟨.rejected e2, [], st⟩
  | .ok (some r) => ⟨.sent r, [], st⟩
  | .ok none =>
    match handler body st with
    | ⟨.rejected e, calls, s⟩ =>
      match errorHandler nodeEnv e with
      | .ok r => ⟨.sent r, calls, s⟩
      | .error e2 => ⟨.rejected e2, calls, s⟩
    | run => run

/-- The route `POST /api/auth/login`. -/
def postLogin {σ : Type} (W : World σ) (cfg : JwtConfig) (nodeEnv : Option String)
    (body : JsVal) (st : σ) : Run σ :=
  route nodeEnv ["email", "password"] (loginHandler W cfg) body st

/-- The route `POST /api/auth/register`. -/
def postRegister {σ : Type} (W : World σ) (cfg : JwtConfig) (nodeEnv : Option String)
    (body : JsVal) (st : σ) : Run σ :=
  route nodeEnv ["email", "password", "name"] (registerHandler W cfg) body st

/-! ## A reference world

An in-memory store with a unique email column, a clock that store calls advance,
and stand-ins for the hasher and the library functions. It instantiates the
theorems below at concrete inputs. -/

/-- The state of the reference world: the clock, the user rows, the next id. -/
structure MemState where
  clock : Int
  users : List JsVal
  nextId : Int

/-- The selected columns of a row. -/
def projectRow (columns : List String) (row : JsVal) : JsVal :=
  obj (columns.map (fun c => (c, row.get c)))

/-- Equality of two scalar column values. -/
def sameScalar : JsVal → JsVal → Bool
  | num a, num b => a = b
  | str a, str b => a = b
  | _, _ => false

/-- The rows whose email column equals the given value. -/
def rowsByEmail (users : List JsVal) (email : JsVal) : List JsVal :=
  users.filter (fun row => sameScalar (row.get "email") email)

/-- The error of `.single()` when the rows are not exactly one. -/
def noRowsError : JsVal :=
  obj [("code", str "PGRST116"), ("message", str "JSON object requested, multiple (or no) rows returned")]

/-- The error of an insert that violates the unique email column. -/
def uniqueViolation : JsVal :=
  obj [("code", str "23505"),
    ("message", str "duplicate key value violates unique constraint")]

/-- The latency, in milliseconds, of a store call in the reference world. -/
def memLatency : Int := 20

/-- The lookup of the reference store. -/
def memSelect (columns : List String) (email : JsVal) (st : MemState) :
    Except JsVal QueryResult × MemState :=
  let st1 := { st with clock := st.clock + memLatency }
  match rowsByEmail st.users email with
  | [row] => (.ok ⟨projectRow columns row, null⟩, st1)
  | _ => (.ok ⟨null, noRowsError⟩, st1)

/-- The insert of the reference store: a fresh id, unless the email is taken. -/
def memInsert (row : JsVal) (columns : List String) (st : MemState) :
    Except JsVal QueryResult × MemState :=
  match row, rowsByEmail st.users (row.get "email") with
  | obj fields, [] =>
    let stored := obj (("id", num st.nextId) :: fields)
    (.ok ⟨projectRow columns stored, null⟩,
      { clock := st.clock + memLatency, users := st.users ++ [stored],
        nextId := st.nextId + 1 })
  | _, _ => (.ok ⟨null, uniqueViolation⟩, { st with clock := st.clock + memLatency })

/-- A row with the fields of a patch written over it. -/
def applyPatch (patch row : JsVal) : JsVal :=
  match patch, row with
  | obj changes, obj fields =>
    obj (changes.foldl (fun acc kv => setField acc kv.1 kv.2) fields)
  | _, _ => row

/-- The update of the reference store. -/
def memUpdate (patch id : JsVal) (st : MemState) : Except JsVal QueryResult × MemState :=
  (.ok ⟨null, null⟩,
    { st with
      clock := st.clock + memLatency
      users := st.users.map
        (fun row => if sameScalar (row.get "id") id then applyPatch patch row else row) })

/-- The stand-in hash of the reference world. -/
def memHash (plaintext : JsVal) : String := "hashed:" ++ jsToString plaintext

/-- The reference world. -/
def memWorld : World MemState where
  configured := true
  isEmail := fun s => s.data.contains '@'
  isEmail_empty := rfl
  toLowerCase := fun s => ⟨s.data.map Char.toLower⟩
  parseNum := String.toInt?
  hmac := fun secret _ _ => secret
  dateNow := fun st => st.clock
  isoNow := fun st => toString st.clock
  selectUser := memSelect
  updateUser := memUpdate
  insertUser := memInsert
  comparePassword := fun plaintext hash st => (.ok (hash.isString (memHash plaintext)), st)
  hashPassword := fun plaintext st => (.ok (str (memHash plaintext)), st)
  sleep := fun ms st => { st with clock := st.clock + ms }

/-- The default token configuration: the fallback secret, and `'7d'` in seconds. -/
def defaultJwtConfig : JwtConfig :=
  ⟨"your-secret-key-change-in-production", some 604800⟩

/-- A login or register body. -/
def credentials (email password : String) : JsVal :=
  obj [("email", str email), ("password", str password)]

/-- A register body. -/
def registration (email password name : String) : JsVal :=
  obj [("email", str email), ("password", str password), ("name", str name)]

/-- The reference world at start: no users. -/
def emptyState : MemState := ⟨1700000000000, [], 1⟩

/-- The reference world after `USER@Example.com` registered with `Strong1!`. -/
def registeredState : MemState :=
  (postRegister memWorld defaultJwtConfig none
    (registration "USER@Example.com" "Strong1!" "Ann") emptyState).state

/-- The reference state with the registered account disabled. -/
def disabledState : MemState :=
  { registeredState with
    users := registeredState.users.map (applyPatch (obj [("is_active", bool false)])) }

/-- The error a failing store call throws or reports. -/
def storeFailure : JsVal := mkError "Error" "fetch failed"

/-- The reference world with a store whose update query throws. -/
def throwingUpdateWorld : World MemState :=
  { memWorld with updateUser := fun _ _ st => (.error storeFailure, st) }

/-- The reference world with a store whose update query resolves to an error. -/
def failingUpdateWorld : World MemState :=
  { memWorld with updateUser := fun _ _ st => (.ok ⟨null, storeFailure⟩, st) }

/-- The row a concurrent registration of `user@example.com` writes. -/
def rivalRow : JsVal :=
  obj [("id", num 7), ("email", str "user@example.com"), ("password", str "hashed:Other1!x"),
    ("name", str "Bob"), ("role", str "student"), ("is_active", bool true),
    ("created_at", str "0")]

/-- The reference world in which a concurrent registration of the same email lands
while the handler awaits the password hash: the race between the pre-check and the
insert. -/
def racingWorld : World MemState :=
  { memWorld with
    hashPassword := fun plaintext st =>
      (.ok (str (memHash plaintext)), { st with users := st.users ++ [rivalRow] }) }

/-- A login request that reaches the lookup: the store is configured, the email
is a string that passes the format check, the password is present. -/
structure ValidLogin {σ : Type} (W : World σ) (body : JsVal) (email : String) : Prop where
  configured : W.configured = true
  emailField : body.get "email" = str email
  emailValid : W.isEmail email = true
  passwordPresent : (body.get "password").truthy = true

/-- The email `register` looks up and inserts for a raw email string:
`sanitizeInput(rawEmail).toLowerCase()`. -/
def normalizedEmail {σ : Type} (W : World σ) (rawEmail : String) : String :=
  W.toLowerCase (validatorEscape (jsTrim rawEmail))

/-- A register request that reaches the pre-check: the store is configured, the
three required fields are present, the email is a string whose normalized form passes
the format check, the password passes `isValidPassword`, and the sanitized name
passes the two length comparisons. -/
structure ValidRegistration {σ : Type} (W : World σ) (body : JsVal) (rawEmail : String) :
    Prop where
  configured : W.configured = true
  emailField : body.get "email" = str rawEmail
  emailPresent : rawEmail ≠ ""
  emailValid : W.isEmail (normalizedEmail W rawEmail) = true
  passwordPresent : (body.get "password").truthy = true
  passwordValid : isValidPassword (body.get "password") = true
  namePresent : (body.get "name").truthy = true
  nameNotShort : numLt (jsToNumber W.parseNum ((sanitizeInput (body.get "name")).get "length"))
    (some 3) = false
  nameNotLong : numLt (some 100)
    (jsToNumber W.parseNum ((sanitizeInput (body.get "name")).get "length")) = false

/-- The HTML-sensitive characters, the eight that `validator.escape` rewrites. -/
def isHtmlSensitive (c : Char) : Bool :=
  let n := c.toNat
  n = 0x26 || n = 0x22 || n = 0x27 || n = 0x3C || n = 0x3E || n = 0x2F || n = 0x5C || n = 0x60

/-- Whether a string neither starts nor ends with a character that `trim` strips. -/
def hasNoSurroundingSpace (s : String) : Bool :=
  (match s.data.head? with
   | some c => !isJsSpace c
   | none => true)
  && (match s.data.getLast? with
   | some c => !isJsSpace c
   | none => true)

/-- A store that returns what `register` inserted: once the insert of a row that
`register` builds has resolved without an error, the login lookup by the inserted
email resolves, without an error, to a row that carries the inserted email, password
hash, name, role and activity flag. -/
def ReturnsInserted {σ : Type} (W : World σ) : Prop :=
  ∀ (email : String) (hashed name : JsVal) (createdAt : String) (columns : List String)
    (st st' : σ) (inserted : QueryResult),
    W.insertUser (newUserRow (str email) hashed name createdAt) columns st
      = (.ok inserted, st') →
    inserted.error.truthy = false →
    ∃ (q : QueryResult) (s : σ),
      W.selectUser loginColumns (str email) st' = (.ok q, s)
      ∧ q.error.truthy = false ∧ q.data.truthy = true
      ∧ q.data.get "password" = hashed
      ∧ q.data.get "is_active" = bool true
      ∧ q.data.get "email" = str email
      ∧ q.data.get "name" = name
      ∧ q.data.get "role" = str "student"

/-- A hasher for which `comparePassword(p, hashPassword(p))` is true. -/
def HasherVerifies {σ : Type} (W : World σ) : Prop :=
  ∀ (plaintext hash : JsVal) (st st' : σ),
    W.hashPassword plaintext st = (.ok hash, st') →
    ∀ st'' : σ, ∃ s : σ, W.comparePassword plaintext hash st'' = (.ok true, s)

/-- A store whose update query returns: awaiting it resolves to a result, an error
result included, rather than throws. -/
def UpdateResolves {σ : Type} (W : World σ) : Prop :=
  ∀ (patch id : JsVal) (st : σ),
    ∃ (result : QueryResult) (s : σ), W.updateUser patch id st = (.ok result, s)

/-! ## Lemmas on the password pattern -/

theorem lookahead_exists (cls : Char → Bool) (cs : List Char)
    (h : lookahead cls cs = true) : ∃ c ∈ cs, cls c = true := by
  induction cs with
  | nil => simp [lookahead] at h
  | cons c cs ih =>
    simp only [lookahead, Bool.or_eq_true, Bool.and_eq_true] at h
    rcases h with h | ⟨_, h⟩
    · exact ⟨c, List.mem_cons_self _ _, h⟩
    · obtain ⟨d, hd, hcd⟩ := ih h
      exact ⟨d, List.mem_cons_of_mem _ hd, hcd⟩

theorem isPasswordChar_ascii (c : Char) (h : isPasswordChar c = true) : c.toNat < 128 := by
  simp only [isPasswordChar, isUpperAZ, isLowerAZ, isDigit09, isSpecial, Bool.or_eq_true,
    Bool.and_eq_true, decide_eq_true_eq] at h
  omega

theorem jsLength_eq_length (cs : List Char) (h : ∀ c ∈ cs, isPasswordChar c = true) :
    jsLength ⟨cs⟩ = cs.length := by
  induction cs with
  | nil => rfl
  | cons c cs ih =>
    have hc := isPasswordChar_ascii c (h c (List.mem_cons_self _ _))
    have hlt : c.val < 0x10000 := by
      rw [UInt32.lt_def]
      show c.val.toNat < 65536
      have : c.toNat = c.val.toNat := rfl
      omega
    have ih' := ih (fun d hd => h d (List.mem_cons_of_mem _ hd))
    simp only [jsLength, List.map_cons, List.sum_cons, List.length_cons] at ih' ⊢
    rw [if_pos hlt, ih']
    omega

theorem passwordRegexTest_sound (cs : List Char) (h : passwordRegexTest cs = true) :
    8 ≤ cs.length ∧ (∀ c ∈ cs, isPasswordChar c = true)
      ∧ (∃ c ∈ cs, isLowerAZ c = true) ∧ (∃ c ∈ cs, isUpperAZ c = true)
      ∧ (∃ c ∈ cs, isDigit09 c = true) ∧ (∃ c ∈ cs, isSpecial c = true) := by
  simp only [passwordRegexTest, Bool.and_eq_true, decide_eq_true_eq, List.all_eq_true] at h
  obtain ⟨⟨⟨⟨h1, h2⟩, h3⟩, h4⟩, h5, h6⟩ := h
  exact ⟨h6, h5, lookahead_exists _ _ h1, lookahead_exists _ _ h2,
    lookahead_exists _ _ h3, lookahead_exists _ _ h4⟩

/-! ## Lemmas on field lists and tokens -/

theorem setField_of_not_hasKey (fields : List (String × JsVal)) (key : String) (v : JsVal)
    (h : hasKey fields key = false) : setField fields key v = fields ++ [(key, v)] := by
  induction fields with
  | nil => rfl
  | cons kv rest ih =>
    obtain ⟨k, w⟩ := kv
    simp only [hasKey, List.any_cons, Bool.or_eq_false_iff, decide_eq_false_iff_not] at h
    have ih' := ih (by simpa [hasKey] using h.2)
    simp [setField, h.1, ih']

theorem hasKey_append (a b : List (String × JsVal)) (key : String) :
    hasKey (a ++ b) key = (hasKey a key || hasKey b key) := by
  simp [hasKey, List.any_append]

theorem lookupField_of_not_hasKey (fields : List (String × JsVal)) (key : String)
    (h : hasKey fields key = false) : lookupField fields key = undefined := by
  induction fields with
  | nil => rfl
  | cons kv rest ih =>
    obtain ⟨k, w⟩ := kv
    simp only [hasKey, List.any_cons, Bool.or_eq_false_iff, decide_eq_false_iff_not] at h
    have ih' := ih (by simpa [hasKey] using h.2)
    simp [lookupField, h.1, ih']

theorem lookupField_append_of_not_hasKey (a b : List (String × JsVal)) (key : String)
    (h : hasKey a key = false) : lookupField (a ++ b) key = lookupField b key := by
  induction a with
  | nil => rfl
  | cons kv rest ih =>
    obtain ⟨k, w⟩ := kv
    simp only [hasKey, List.any_cons, Bool.or_eq_false_iff, decide_eq_false_iff_not] at h
    have ih' := ih (by simpa [hasKey] using h.2)
    simp [lookupField, h.1, ih']

theorem jsonCloneFields_append (a b : List (String × JsVal)) :
    jsonCloneFields (a ++ b) = jsonCloneFields a ++ jsonCloneFields b := by
  induction a with
  | nil => rfl
  | cons kv rest ih =>
    obtain ⟨k, w⟩ := kv
    cases w <;> simp [jsonCloneFields, ih]

theorem jsonCloneFields_of_clone (fields : List (String × JsVal))
    (h : jsonClone (obj fields) = obj fields) : jsonCloneFields fields = fields := by
  simpa [jsonClone] using h

/-! ## Lemmas on the routes -/

@[simp] theorem truthy_bool (b : Bool) : (JsVal.bool b).truthy = b := rfl

@[simp] theorem truthy_obj (fields : List (String × JsVal)) : (obj fields).truthy = true := rfl

@[simp] theorem truthy_null : JsVal.null.truthy = false := rfl

@[simp] theorem truthy_undefined : JsVal.undefined.truthy = false := rfl

theorem get_ne_undefined_not_nullish (body : JsVal) (key : String)
    (h : body.get key ≠ undefined) : body.isNullish = false := by
  cases body <;> simp [JsVal.get, isNullish] at h ⊢

theorem catchAll_outcome_sent {σ : Type} (label message : String)
    (r : Except JsVal Response × List Call × σ) :
    ∃ resp, (catchAll label message r).outcome = .sent resp := by
  rcases r with ⟨_ | _, calls, s⟩ <;> simp [catchAll]

theorem route_of_sent {σ : Type} (nodeEnv : Option String) (fields : List String)
    (handler : JsVal → σ → Run σ) (body : JsVal) (st : σ)
    (hv : validateRequest fields body = .ok none)
    (hs : ∃ resp, (handler body st).outcome = .sent resp) :
    route nodeEnv fields handler body st = handler body st := by
  obtain ⟨resp, hresp⟩ := hs
  unfold route
  rw [hv]
  rcases hrun : handler body st with ⟨o, calls, s⟩
  rw [hrun] at hresp
  simp only at hresp
  subst hresp
  rfl

theorem validateRequest_login (body : JsVal) (hb : body.isNullish = false)
    (he : (body.get "email").truthy = true) (hp : (body.get "password").truthy = true) :
    validateRequest ["email", "password"] body = .ok none := by
  simp [validateRequest, hb, he, hp]

theorem validateRequest_register (body : JsVal) (hb : body.isNullish = false)
    (he : (body.get "email").truthy = true) (hp : (body.get "password").truthy = true)
    (hn : (body.get "name").truthy = true) :
    validateRequest ["email", "password", "name"] body = .ok none := by
  simp [validateRequest, hb, he, hp, hn]

/-- A login whose required fields are present, over a configured store and with an
email that passes the format check, is the `try` block under its `catch`. -/
theorem postLogin_eq_try {σ : Type} (W : World σ) (cfg : JwtConfig)
    (nodeEnv : Option String) (body : JsVal) (st : σ) (email : String)
    (hcfg : W.configured = true) (hmail : body.get "email" = str email)
    (hvalid : W.isEmail email = true)
    (hpw : (body.get "password").truthy = true) :
    postLogin W cfg nodeEnv body st =
      catchAll "Login error:" "Login failed. Please try again later."
        (loginTry W cfg (str email) (body.get "password") (W.dateNow st) st) := by
  have hne : email ≠ "" := by
    intro h
    rw [h, W.isEmail_empty] at hvalid
    cases hvalid
  have hb : body.isNullish = false :=
    get_ne_undefined_not_nullish body "email" (by rw [hmail]; simp)
  have hh : loginHandler W cfg body st =
      catchAll "Login error:" "Login failed. Please try again later."
        (loginTry W cfg (str email) (body.get "password") (W.dateNow st) st) := by
    simp [loginHandler, hb, hcfg, hmail, isValidEmail, hvalid]
  unfold postLogin
  rw [route_of_sent nodeEnv _ _ body st
    (validateRequest_login body hb (by simp [hmail, truthy, hne]) hpw)
    (by rw [hh]; exact catchAll_outcome_sent _ _ _), hh]

theorem sanitizeInput_str (s : String) :
    sanitizeInput (str s) = str (validatorEscape (jsTrim s)) := rfl

theorem truthy_not_nullish (v : JsVal) (h : v.truthy = true) : v.isNullish = false := by
  cases v <;> simp [truthy, isNullish] at h ⊢

theorem sanitizeInput_not_nullish (v : JsVal) (h : v.truthy = true) :
    (sanitizeInput v).isNullish = false := by
  cases v <;> simp [truthy, sanitizeInput, isNullish] at h ⊢

/-- A registration whose fields pass the checks of the handler is the `try` block
under its `catch`. -/
theorem postRegister_eq_try {σ : Type} (W : World σ) (cfg : JwtConfig)
    (nodeEnv : Option String) (body : JsVal) (st : σ) (rawEmail : String)
    (hreq : ValidRegistration W body rawEmail) :
    postRegister W cfg nodeEnv body st =
      catchAll "Registration error:" "Registration failed. Please try again later."
        (registerTry W cfg (str (normalizedEmail W rawEmail)) (body.get "password")
          (sanitizeInput (body.get "name")) st) := by
  have hb : body.isNullish = false :=
    get_ne_undefined_not_nullish body "email" (by rw [hreq.emailField]; simp)
  have hh : registerHandler W cfg body st =
      catchAll "Registration error:" "Registration failed. Please try again later."
        (registerTry W cfg (str (normalizedEmail W rawEmail)) (body.get "password")
          (sanitizeInput (body.get "name")) st) := by
    have hn := sanitizeInput_not_nullish _ hreq.namePresent
    have hv := hreq.emailValid
    unfold normalizedEmail at hv
    simp [registerHandler, hb, hreq.configured, hreq.emailField, sanitizeInput_str,
      callToLowerCase, isValidEmail, hv, hreq.passwordValid, getProp, hn,
      hreq.nameNotShort, hreq.nameNotLong, normalizedEmail]
  unfold postRegister
  rw [route_of_sent nodeEnv _ _ body st
    (validateRequest_register body hb (by simp [hreq.emailField, truthy, hreq.emailPresent])
      hreq.passwordPresent hreq.namePresent)
    (by rw [hh]; exact catchAll_outcome_sent _ _ _), hh]

theorem dropWhile_of_head (p : Char → Bool) (cs : List Char)
    (h : ∀ c, cs.head? = some c → p c = false) : cs.dropWhile p = cs := by
  cases cs with
  | nil => rfl
  | cons c rest => simp [List.dropWhile_cons, h c rfl]

theorem trimChars_of_no_surrounding_space (s : String) (h : hasNoSurroundingSpace s = true) :
    trimChars s.data = s.data := by
  simp only [hasNoSurroundingSpace, Bool.and_eq_true] at h
  obtain ⟨hhead, hlast⟩ := h
  have h1 : s.data.dropWhile isJsSpace = s.data := by
    apply dropWhile_of_head
    intro c hc
    rw [hc] at hhead
    simpa using hhead
  have h2 : s.data.reverse.dropWhile isJsSpace = s.data.reverse := by
    apply dropWhile_of_head
    intro c hc
    rw [List.head?_reverse] at hc
    rw [hc] at hlast
    simpa using hlast
  simp [trimChars, h1, h2]

theorem escapeChar_of_plain (c : Char) (h : isHtmlSensitive c = false) : escapeChar c = [c] := by
  simp only [isHtmlSensitive, Bool.or_eq_false_iff, decide_eq_false_iff_not] at h
  obtain ⟨⟨⟨⟨⟨⟨⟨a1, a2⟩, a3⟩, a4⟩, a5⟩, a6⟩, a7⟩, a8⟩ := h
  simp [escapeChar, a1, a2, a3, a4, a5, a6, a7, a8]

theorem flatMap_escapeChar_of_plain (cs : List Char)
    (h : ∀ c ∈ cs, isHtmlSensitive c = false) : cs.flatMap escapeChar = cs := by
  induction cs with
  | nil => rfl
  | cons c rest ih =>
    rw [List.flatMap_cons, escapeChar_of_plain c (h c (List.mem_cons_self _ _)),
      ih (fun d hd => h d (List.mem_cons_of_mem _ hd))]
    rfl

/-- `sanitizeInput` leaves a string without surrounding whitespace and without
HTML-sensitive characters as it is. -/
theorem sanitizeInput_of_plain (s : String) (hspace : hasNoSurroundingSpace s = true)
    (hplain : ∀ c ∈ s.data, isHtmlSensitive c = false) : sanitizeInput (str s) = str s := by
  have ht : jsTrim s = s := by
    unfold jsTrim
    rw [trimChars_of_no_surrounding_space s hspace]
  have he : validatorEscape s = s := by
    unfold validatorEscape
    rw [flatMap_escapeChar_of_plain s.data hplain]
  rw [sanitizeInput_str, ht, he]

/-- The claims both handlers sign are always signed when the configured validity
window is readable, and never otherwise. -/
theorem generateToken_authClaims (hmac : String → JsVal → JsVal → String) (cfg : JwtConfig)
    (user : JsVal) (now : Int) (token : JsVal)
    (h : generateToken hmac cfg (authClaims user) now = .ok token) :
    ∃ span, cfg.expiresIn = some span := by
  cases hspan : cfg.expiresIn with
  | some span => exact ⟨span, rfl⟩
  | none =>
    simp [generateToken, jwtSign, authClaims, claimIsNumberIfPresent, hasKey, lookupField,
      hspan] at h

theorem generateToken_authClaims_ok (hmac : String → JsVal → JsVal → String) (cfg : JwtConfig)
    (user : JsVal) (now span : Int) (h : cfg.expiresIn = some span) :
    ∃ token, generateToken hmac cfg (authClaims user) now = .ok token := by
  simp [generateToken, jwtSign, authClaims, claimIsNumberIfPresent, hasKey, lookupField,
    orElse, h]

theorem validateRequest_some_status (fields : List String) (body : JsVal) (resp : Response)
    (h : validateRequest fields body = .ok (some resp)) : resp.status = num 400 := by
  unfold validateRequest at h
  split at h
  · simp at h
  · simp only at h
    split at h
    · simp only [Except.ok.injEq, Option.some.injEq] at h
      rw [← h]
    · simp at h

theorem validateRequest_none_truthy (fields : List String) (body : JsVal)
    (h : validateRequest fields body = .ok none) :
    ∀ f ∈ fields, (body.get f).truthy = true := by
  unfold validateRequest at h
  split at h
  · simp at h
  · simp only at h
    split at h
    · simp at h
    · rename_i hlen
      intro f hf
      by_contra hne
      apply hlen
      simp only [List.length_map]
      apply List.length_pos_of_mem
      exact List.mem_filter.mpr ⟨hf, by simpa using hne⟩

theorem validateRequest_error_nullish (fields : List String) (body : JsVal) (err : JsVal)
    (h : validateRequest fields body = .error err) : body.isNullish = true := by
  unfold validateRequest at h
  split at h
  · rename_i hc
    simp only [Bool.and_eq_true] at hc
    exact hc.1
  · simp only at h
    split at h <;> simp at h

theorem registration_valid_of_201 {σ : Type} (W : World σ) (cfg : JwtConfig)
    (nodeEnv : Option String) (e p n : String) (st : σ) (r : Response)
    (hreg : (postRegister W cfg nodeEnv (registration e p n) st).outcome = .sent r)
    (h201 : r.status = num 201) :
    ValidRegistration W (registration e p n) e := by
  have hb : (registration e p n).isNullish = false := rfl
  have hge : (registration e p n).get "email" = str e := rfl
  have hgp : (registration e p n).get "password" = str p := rfl
  have hgn : (registration e p n).get "name" = str n := rfl
  unfold postRegister route at hreg
  cases hv : validateRequest ["email", "password", "name"] (registration e p n) with
  | error err =>
    have := validateRequest_error_nullish _ _ _ hv
    rw [hb] at this
    cases this
  | ok o =>
    cases o with
    | some resp =>
      rw [hv] at hreg
      simp only [Outcome.sent.injEq] at hreg
      have := validateRequest_some_status _ _ _ hv
      rw [hreg, h201] at this
      simp at this
    | none =>
      rw [hv] at hreg
      simp only at hreg
      have hfields := validateRequest_none_truthy _ _ hv
      have hte : (str e).truthy = true := by
        have := hfields "email" (by simp)
        rwa [hge] at this
      have htp : (str p).truthy = true := by
        have := hfields "password" (by simp)
        rwa [hgp] at this
      have htn : (str n).truthy = true := by
        have := hfields "name" (by simp)
        rwa [hgn] at this
      simp only [registerHandler, hb, hge, hgp, hgn, sanitizeInput_str, callToLowerCase,
        isValidEmail, getProp, isNullish] at hreg
      have hbad : ∀ (code : Int) (msg : String), code ≠ 201 → errorResponse code msg = r → False := by
        intro code msg hc hr
        rw [← hr] at h201
        simp [errorResponse] at h201
        exact hc h201
      by_cases hc : W.configured = true
      swap
      · simp [hc, registration] at hreg
        exact (hbad _ _ (by decide) hreg).elim
      cases hem : W.isEmail (W.toLowerCase (validatorEscape (jsTrim e))) with
      | false =>
        simp [hc, hem, registration] at hreg
        exact (hbad _ _ (by decide) hreg).elim
      | true =>
        cases hpw : isValidPassword (str p) with
        | false =>
          simp [hc, hem, hpw, registration] at hreg
          exact (hbad _ _ (by decide) hreg).elim
        | true =>
          cases hlen : (numLt (jsToNumber W.parseNum
              ((str (validatorEscape (jsTrim n))).get "length")) (some 3)
            || numLt (some 100) (jsToNumber W.parseNum
              ((str (validatorEscape (jsTrim n))).get "length"))) with
          | true =>
            simp [hc, hem, hpw, hlen, registration] at hreg
            exact (hbad _ _ (by decide) hreg).elim
          | false =>
            simp only [Bool.or_eq_false_iff] at hlen
            exact ⟨hc, hge, by simpa [truthy] using hte, hem, by rw [hgp]; exact htp,
              by rw [hgp]; exact hpw, by rw [hgn]; exact htn,
              by rw [hgn, sanitizeInput_str]; exact hlen.1,
              by rw [hgn, sanitizeInput_str]; exact hlen.2⟩

theorem registerTry_of_201 {σ : Type} (W : World σ) (cfg : JwtConfig)
    (email password name : JsVal) (st : σ) (r : Response)
    (hrun : (catchAll "Registration error:" "Registration failed. Please try again later."
      (registerTry W cfg email password name st)).outcome = .sent r)
    (h201 : r.status = num 201) :
    ∃ (existing : QueryResult) (s₁ : σ) (hashed : JsVal) (s₂ : σ) (inserted : QueryResult)
      (s₃ : σ) (token : JsVal),
      W.selectUser ["id"] email st = (.ok existing, s₁) ∧ existing.data.truthy = false
      ∧ W.hashPassword password s₁ = (.ok hashed, s₂)
      ∧ W.insertUser (newUserRow email hashed name (W.isoNow s₂)) registerColumns s₂
        = (.ok inserted, s₃)
      ∧ inserted.error.truthy = false
      ∧ generateToken W.hmac cfg (authClaims inserted.data) (W.dateNow s₃) = .ok token
      ∧ catchAll "Registration error:" "Registration failed. Please try again later."
          (registerTry W cfg email password name st)
        = ⟨.sent (registerSuccess token inserted.data),
            [Call.selectUser ["id"] email, Call.hashPassword password,
              Call.insertUser (newUserRow email hashed name (W.isoNow s₂)) registerColumns,
              Call.generateToken (authClaims inserted.data)], s₃⟩ := by
  have hbad : ∀ (code : Int) (msg : String), code ≠ 201 → errorResponse code msg = r → False := by
    intro code msg hc hr
    rw [← hr] at h201
    simp [errorResponse] at h201
    exact hc h201
  rcases h1 : W.selectUser ["id"] email st with ⟨_ | existing, s₁⟩
  · simp [registerTry, h1, catchAll] at hrun
    exact (hbad _ _ (by decide) hrun).elim
  cases hex : existing.data.truthy with
  | true =>
    simp [registerTry, h1, hex, catchAll] at hrun
    exact (hbad _ _ (by decide) hrun).elim
  | false =>
    rcases h2 : W.hashPassword password s₁ with ⟨_ | hashed, s₂⟩
    · simp [registerTry, h1, hex, h2, catchAll] at hrun
      exact (hbad _ _ (by decide) hrun).elim
    rcases h3 : W.insertUser (newUserRow email hashed name (W.isoNow s₂)) registerColumns s₂
      with ⟨_ | inserted, s₃⟩
    · simp [registerTry, h1, hex, h2, h3, catchAll] at hrun
      exact (hbad _ _ (by decide) hrun).elim
    cases herr : inserted.error.truthy with
    | true =>
      simp [registerTry, h1, hex, h2, h3, herr, catchAll] at hrun
      exact (hbad _ _ (by decide) hrun).elim
    | false =>
      cases hnull : inserted.data.isNullish with
      | true =>
        simp [registerTry, h1, hex, h2, h3, herr, hnull, catchAll] at hrun
        exact (hbad _ _ (by decide) hrun).elim
      | false =>
        cases h4 : generateToken W.hmac cfg (authClaims inserted.data) (W.dateNow s₃) with
        | error err =>
          simp [registerTry, h1, hex, h2, h3, herr, hnull, h4, catchAll] at hrun
          exact (hbad _ _ (by decide) hrun).elim
        | ok token =>
          refine ⟨existing, s₁, hashed, s₂, inserted, s₃, token, rfl, hex, h2, h3, herr, h4, ?_⟩
          simp [registerTry, h1, hex, h2, h3, herr, hnull, h4, catchAll]

theorem returnsInserted_of_mem (W : World MemState) (hi : W.insertUser = memInsert)
    (hs : W.selectUser = memSelect) : ReturnsInserted W := by
  intro email hashed name createdAt columns st st' inserted hins herr
  have hemail : (newUserRow (str email) hashed name createdAt).get "email" = str email := rfl
  rw [hi] at hins
  rw [hs]
  unfold memInsert at hins
  rw [hemail] at hins
  cases hrows : rowsByEmail st.users (str email) with
  | cons row rest =>
    rw [hrows] at hins
    simp only [newUserRow, Prod.mk.injEq, Except.ok.injEq] at hins
    rw [← hins.1] at herr
    simp [uniqueViolation] at herr
  | nil =>
    rw [hrows] at hins
    simp only [newUserRow, Prod.mk.injEq, Except.ok.injEq] at hins
    obtain ⟨-, hst⟩ := hins
    have husers : st'.users = st.users ++ [obj (("id", num st.nextId) ::
        [("email", str email), ("password", hashed), ("name", name), ("role", str "student"),
          ("is_active", bool true), ("created_at", str createdAt)])] := by rw [← hst]
    have hsel : rowsByEmail (st.users ++ [obj (("id", num st.nextId) ::
        [("email", str email), ("password", hashed), ("name", name), ("role", str "student"),
          ("is_active", bool true), ("created_at", str createdAt)])]) (str email)
        = [obj (("id", num st.nextId) ::
        [("email", str email), ("password", hashed), ("name", name), ("role", str "student"),
          ("is_active", bool true), ("created_at", str createdAt)])] := by
      unfold rowsByEmail at hrows ⊢
      rw [List.filter_append, hrows]
      simp [JsVal.get, lookupField, sameScalar]
    refine ⟨⟨projectRow loginColumns (obj (("id", num st.nextId) ::
        [("email", str email), ("password", hashed), ("name", name), ("role", str "student"),
          ("is_active", bool true), ("created_at", str createdAt)])), null⟩,
      { st' with clock := st'.clock + memLatency }, ?_, rfl, rfl, rfl, rfl, rfl, rfl, rfl⟩
    simp only [memSelect, husers, hsel]

theorem hasherVerifies_of_mem (W : World MemState)
    (hh : W.hashPassword = memWorld.hashPassword)
    (hc : W.comparePassword = memWorld.comparePassword) : HasherVerifies W := by
  intro plaintext hash st st' hhash st''
  rw [hh] at hhash
  rw [hc]
  simp only [memWorld, Prod.mk.injEq, Except.ok.injEq] at hhash
  refine ⟨st'', ?_⟩
  simp [memWorld, ← hhash.1, isString]

theorem updateResolves_memWorld : UpdateResolves memWorld := by
  intro patch id st
  exact ⟨_, _, rfl⟩

/-! ## Lemmas on the password pattern, converse direction -/

theorem isPasswordChar_not_lineTerminator (c : Char) (h : isPasswordChar c = true) :
    isLineTerminator c = false := by
  have hlt := isPasswordChar_ascii c h
  simp only [isPasswordChar, isUpperAZ, isLowerAZ, isDigit09, isSpecial, Bool.or_eq_true,
    Bool.and_eq_true, decide_eq_true_eq] at h
  simp only [isLineTerminator, Bool.or_eq_false_iff, decide_eq_false_iff_not]
  omega

theorem lookahead_of_mem (cls : Char → Bool) (cs : List Char)
    (hdot : ∀ c ∈ cs, isLineTerminator c = false) (h : ∃ c ∈ cs, cls c = true) :
    lookahead cls cs = true := by
  induction cs with
  | nil =>
    obtain ⟨c, hc, _⟩ := h
    cases hc
  | cons d ds ih =>
    obtain ⟨c, hc, hcls⟩ := h
    simp only [lookahead, Bool.or_eq_true, Bool.and_eq_true]
    rcases List.mem_cons.mp hc with rfl | hmem
    · exact Or.inl hcls
    · refine Or.inr ⟨?_, ih (fun x hx => hdot x (List.mem_cons_of_mem _ hx)) ⟨c, hmem, hcls⟩⟩
      simp [hdot d (List.mem_cons_self _ _)]

theorem passwordRegexTest_complete (cs : List Char) (hlen : 8 ≤ cs.length)
    (hall : ∀ c ∈ cs, isPasswordChar c = true)
    (hl : ∃ c ∈ cs, isLowerAZ c = true) (hu : ∃ c ∈ cs, isUpperAZ c = true)
    (hd : ∃ c ∈ cs, isDigit09 c = true) (hs : ∃ c ∈ cs, isSpecial c = true) :
    passwordRegexTest cs = true := by
  have hdot : ∀ c ∈ cs, isLineTerminator c = false :=
    fun c hc => isPasswordChar_not_lineTerminator c (hall c hc)
  simp only [passwordRegexTest, Bool.and_eq_true, decide_eq_true_eq, List.all_eq_true]
  exact ⟨⟨⟨⟨lookahead_of_mem _ _ hdot hl, lookahead_of_mem _ _ hdot hu⟩,
    lookahead_of_mem _ _ hdot hd⟩, lookahead_of_mem _ _ hdot hs⟩, hall, hlen⟩

/-! ## Lemmas on the calls of a registration -/

theorem route_calls {σ : Type} (nodeEnv : Option String) (fields : List String)
    (handler : JsVal → σ → Run σ) (body : JsVal) (st : σ) (c : Call)
    (h : c ∈ (route nodeEnv fields handler body st).calls) : c ∈ (handler body st).calls := by
  unfold route at h
  split at h
  · split at h <;> simp at h
  · simp at h
  · split at h
    · rename_i e calls s hrun
      rw [hrun]
      split at h <;> exact h
    · exact h

theorem catchAll_calls {σ : Type} (label message : String)
    (r : Except JsVal Response × List Call × σ) (c : Call)
    (h : c ∈ (catchAll label message r).calls) :
    c ∈ r.2.1 ∨ ∃ e, c = Call.consoleError label e := by
  rcases r with ⟨_ | _, calls, s⟩
  · simp only [catchAll, List.mem_append, List.mem_singleton] at h
    rcases h with h | h
    · exact Or.inl h
    · exact Or.inr ⟨_, h⟩
  · exact Or.inl h

theorem registerTry_insert {σ : Type} (W : World σ) (cfg : JwtConfig)
    (email password name : JsVal) (st : σ) (row : JsVal) (columns : List String)
    (h : Call.insertUser row columns ∈ (registerTry W cfg email password name st).2.1) :
    ∃ hashed createdAt, row = newUserRow email hashed name createdAt := by
  unfold registerTry at h
  rcases h1 : W.selectUser ["id"] email st with ⟨_ | existing, s₁⟩
  · simp [h1] at h
  simp only [h1] at h
  split at h
  · simp at h
  rcases h2 : W.hashPassword password s₁ with ⟨_ | hashed, s₂⟩
  · simp [h2] at h
  simp only [h2] at h
  have key : ∀ calls : List Call, Call.insertUser row columns ∈
      [Call.selectUser ["id"] email] ++ [Call.hashPassword password] ++
        [Call.insertUser (newUserRow email hashed name (W.isoNow s₂)) registerColumns] ++ calls →
      (∀ c ∈ calls, ∀ r k, c ≠ Call.insertUser r k) →
      ∃ hashed createdAt, row = newUserRow email hashed name createdAt := by
    intro calls hmem hno
    simp at hmem
    rcases hmem with ⟨hr, -⟩ | hm
    · exact ⟨hashed, W.isoNow s₂, hr⟩
    · exact absurd rfl (hno _ hm row columns)
  rcases h3 : W.insertUser (newUserRow email hashed name (W.isoNow s₂)) registerColumns s₂
    with ⟨_ | inserted, s₃⟩
  · simp only [h3] at h
    exact key [] (by simpa using h) (by simp)
  simp only [h3] at h
  split at h
  · exact key [Call.consoleError "User creation error:" inserted.error] (by simpa using h)
      (by simp)
  split at h
  · exact key [] (by simpa using h) (by simp)
  split at h
  · exact key [Call.generateToken (authClaims inserted.data)] (by simpa using h) (by simp)
  · exact key [Call.generateToken (authClaims inserted.data)] (by simpa using h) (by simp)


theorem registerHandler_insert {σ : Type} (W : World σ) (cfg : JwtConfig) (body : JsVal)
    (st : σ) (row : JsVal) (columns : List String)
    (h : Call.insertUser row columns ∈ (registerHandler W cfg body st).calls) :
    (∃ email hashed createdAt,
        row = newUserRow email hashed (sanitizeInput (body.get "name")) createdAt)
    ∧ numLt (jsToNumber W.parseNum ((sanitizeInput (body.get "name")).get "length"))
        (some 3) = false
    ∧ numLt (some 100)
        (jsToNumber W.parseNum ((sanitizeInput (body.get "name")).get "length")) = false := by
  unfold registerHandler at h
  split at h
  · simp at h
  simp only at h
  split at h
  · simp at h
  split at h
  · simp at h
  rename_i email hemail
  split at h
  · simp at h
  · simp at h
  split at h
  · simp at h
  split at h
  · simp at h
  rename_i len hlen
  split at h
  · simp at h
  rename_i hcheck
  have hlen' : len = (sanitizeInput (body.get "name")).get "length" := by
    simp only [getProp] at hlen
    split at hlen
    · cases hlen
    · exact (Except.ok.inj hlen).symm
  subst hlen'
  simp only [Bool.or_eq_true, not_or, Bool.not_eq_true] at hcheck
  refine ⟨?_, hcheck.1, hcheck.2⟩
  rcases catchAll_calls _ _ _ _ h with hmem | ⟨e, he⟩
  · obtain ⟨hashed, createdAt, hrow⟩ := registerTry_insert W cfg _ _ _ st row columns hmem
    exact ⟨email, hashed, createdAt, hrow⟩
  · cases he

/-- A registration whose email and password pass the checks and whose sanitized
name has a numeric length outside `[3, 100]` is answered 400 before any call. -/
theorem postRegister_name_out_of_bounds {σ : Type} (W : World σ) (cfg : JwtConfig)
    (nodeEnv : Option String) (body : JsVal) (st : σ) (rawEmail : String) (n : Int)
    (hcfg : W.configured = true) (hmail : body.get "email" = str rawEmail)
    (hpresent : rawEmail ≠ "") (hvalid : W.isEmail (normalizedEmail W rawEmail) = true)
    (hpw : (body.get "password").truthy = true)
    (hpwv : isValidPassword (body.get "password") = true)
    (hname : (body.get "name").truthy = true)
    (hlen : (sanitizeInput (body.get "name")).get "length" = num n)
    (hout : n < 3 ∨ 100 < n) :
    postRegister W cfg nodeEnv body st
      = ⟨.sent (errorResponse 400 "Name must be between 3 and 100 characters"), [], st⟩ := by
  have hb : body.isNullish = false :=
    get_ne_undefined_not_nullish body "email" (by rw [hmail]; simp)
  have hn := sanitizeInput_not_nullish _ hname
  have hcheck : (numLt (jsToNumber W.parseNum (num n)) (some 3)
      || numLt (some 100) (jsToNumber W.parseNum (num n))) = true := by
    simp only [jsToNumber, numLt, Bool.or_eq_true, decide_eq_true_eq]
    exact hout
  have hh : registerHandler W cfg body st
      = ⟨.sent (errorResponse 400 "Name must be between 3 and 100 characters"), [], st⟩ := by
    unfold normalizedEmail at hvalid
    simp only [Bool.or_eq_true] at hcheck
    simp [registerHandler, hb, hcfg, hmail, sanitizeInput_str, callToLowerCase, isValidEmail,
      hvalid, hpwv, getProp, hn, hlen, hcheck]
  unfold postRegister
  rw [route_of_sent nodeEnv _ _ body st
    (validateRequest_register body hb (by simp [hmail, truthy, hpresent]) hpw hname)
    (by rw [hh]; exact ⟨_, rfl⟩), hh]

/-! ## Lemmas on the token of a login -/

theorem generateToken_authClaims_eq (hmac : String → JsVal → JsVal → String) (cfg : JwtConfig)
    (user : JsVal) (now span : Int) (h : cfg.expiresIn = some span) :
    generateToken hmac cfg (authClaims user) now
      = .ok (obj [("header", obj [("alg", str "HS256"), ("typ", str "JWT")]),
          ("payload", jsonClone (obj [("id", user.get "id"), ("email", user.get "email"),
            ("role", user.get "role"), ("name", user.get "name"), ("type", str "auth"),
            ("iat", num (Int.fdiv now 1000)), ("exp", num (Int.fdiv now 1000 + span))])),
          ("signature", str (hmac cfg.secret (obj [("alg", str "HS256"), ("typ", str "JWT")])
            (jsonClone (obj [("id", user.get "id"), ("email", user.get "email"),
              ("role", user.get "role"), ("name", user.get "name"), ("type", str "auth"),
              ("iat", num (Int.fdiv now 1000)), ("exp", num (Int.fdiv now 1000 + span))]))))]) := by
  simp [generateToken, jwtSign, authClaims, claimIsNumberIfPresent, hasKey, lookupField,
    orElse, setField, mkToken, jwtHeader, h]

theorem loginTry_same_lowercase {σ : Type} (W : World σ) (cfg : JwtConfig) (a b : String)
    (password : JsVal) (startTime : Int) (st : σ) (h : W.toLowerCase a = W.toLowerCase b) :
    loginTry W cfg (str a) password startTime st = loginTry W cfg (str b) password startTime st := by
  simp [loginTry, callToLowerCase, h]


theorem verifyToken_authToken (hmac : String → JsVal → JsVal → String) (cfg : JwtConfig)
    (id : JsVal) (email role : String) (name : String) (now span : Int) (hpos : 0 < span) :
    verifyToken hmac cfg
      (obj [("header", obj [("alg", str "HS256"), ("typ", str "JWT")]),
          ("payload", jsonClone (obj [("id", id), ("email", str email),
            ("role", str role), ("name", str name), ("type", str "auth"),
            ("iat", num (Int.fdiv now 1000)), ("exp", num (Int.fdiv now 1000 + span))])),
          ("signature", str (hmac cfg.secret (obj [("alg", str "HS256"), ("typ", str "JWT")])
            (jsonClone (obj [("id", id), ("email", str email),
              ("role", str role), ("name", str name), ("type", str "auth"),
              ("iat", num (Int.fdiv now 1000)), ("exp", num (Int.fdiv now 1000 + span))]))))]) now
      = .ok (jsonClone (obj [("id", id), ("email", str email),
            ("role", str role), ("name", str name), ("type", str "auth"),
            ("iat", num (Int.fdiv now 1000)), ("exp", num (Int.fdiv now 1000 + span))])) := by
  cases id <;>
    simp [verifyToken, jwtVerify, jwtParts, JsVal.get, lookupField, isString, getProp,
      isNullish, jsonClone, jsonCloneFields, bind, Except.bind, pure, Except.pure,
      not_le.mpr hpos]

/-! ## The claims -/

/-- C1: over a configured store, with a present password and an email that passes
the format check, the login response when the lookup yields no user or an error and
the login response when it yields an active user whose password does not verify are
the same: status 401 with body
`{ status: 'error', code: 401, message: 'Invalid email or password' }`. -/
theorem login_unknown_user_and_wrong_password_same_response {σ₁ σ₂ : Type}
    (W₁ : World σ₁) (W₂ : World σ₂) (cfg₁ cfg₂ : JwtConfig) (env₁ env₂ : Option String)
    (body₁ body₂ : JsVal) (email₁ email₂ : String) (st₁ s₁ : σ₁) (st₂ s₂ s₂' : σ₂)
    (q₁ q₂ : QueryResult)
    (hreq₁ : ValidLogin W₁ body₁ email₁) (hreq₂ : ValidLogin W₂ body₂ email₂)
    (hlookup₁ : W₁.selectUser loginColumns (str (W₁.toLowerCase email₁)) st₁ = (.ok q₁, s₁))
    (hnone : q₁.error.truthy = true ∨ q₁.data.truthy = false)
    (hlookup₂ : W₂.selectUser loginColumns (str (W₂.toLowerCase email₂)) st₂ = (.ok q₂, s₂))
    (hfound : q₂.error.truthy = false ∧ q₂.data.truthy = true)
    (hactive : (q₂.data.get "is_active").truthy = true)
    (hwrong : W₂.comparePassword (body₂.get "password") (q₂.data.get "password") s₂
      = (.ok false, s₂')) :
    (postLogin W₁ cfg₁ env₁ body₁ st₁).outcome = (postLogin W₂ cfg₂ env₂ body₂ st₂).outcome
    ∧ (postLogin W₁ cfg₁ env₁ body₁ st₁).outcome = .sent ⟨num 401,
        obj [("status", str "error"), ("code", num 401),
          ("message", str "Invalid email or password")]⟩ := by
  have e₁ := postLogin_eq_try W₁ cfg₁ env₁ body₁ st₁ email₁ hreq₁.configured
    hreq₁.emailField hreq₁.emailValid hreq₁.passwordPresent
  have e₂ := postLogin_eq_try W₂ cfg₂ env₂ body₂ st₂ email₂ hreq₂.configured
    hreq₂.emailField hreq₂.emailValid hreq₂.passwordPresent
  have r₁ : (postLogin W₁ cfg₁ env₁ body₁ st₁).outcome
      = .sent (errorResponse 401 "Invalid email or password") := by
    rw [e₁]
    rcases hnone with h | h <;>
      simp [loginTry, callToLowerCase, hlookup₁, h, catchAll]
  have r₂ : (postLogin W₂ cfg₂ env₂ body₂ st₂).outcome
      = .sent (errorResponse 401 "Invalid email or password") := by
    rw [e₂]
    simp [loginTry, callToLowerCase, hlookup₂, hfound.1, hfound.2, hactive, hwrong, catchAll]
  exact ⟨r₁.trans r₂.symm, r₁⟩

/-- C1 at concrete requests of the reference world: an unknown email against the
empty store, and the registered email with a wrong password. -/
theorem login_unknown_user_and_wrong_password_same_response_witness :
    (postLogin memWorld defaultJwtConfig none
        (credentials "nobody@example.com" "Strong1!") emptyState).outcome
      = (postLogin memWorld defaultJwtConfig none
        (credentials "user@example.com" "Wrong1!x") registeredState).outcome
    ∧ (postLogin memWorld defaultJwtConfig none
        (credentials "nobody@example.com" "Strong1!") emptyState).outcome
      = .sent ⟨num 401, obj [("status", str "error"), ("code", num 401),
          ("message", str "Invalid email or password")]⟩ :=
  login_unknown_user_and_wrong_password_same_response memWorld memWorld
    defaultJwtConfig defaultJwtConfig none none
    (credentials "nobody@example.com" "Strong1!") (credentials "user@example.com" "Wrong1!x")
    "nobody@example.com" "user@example.com"
    emptyState _ registeredState _ _ _ _
    ⟨rfl, rfl, by decide, rfl⟩ ⟨rfl, rfl, by decide, rfl⟩
    rfl (Or.inl rfl) rfl ⟨rfl, rfl⟩ rfl rfl

/-- C2: a login for which the store returns a user whose `is_active` is `false` is
answered 403 `Account is disabled. Contact support.`, a body without a token,
whatever `comparePassword` would answer; the run calls neither `generateToken` nor
`comparePassword`, and nothing after the lookup. -/
theorem login_inactive_user_gets_no_token {σ : Type} (W : World σ) (cfg : JwtConfig)
    (nodeEnv : Option String) (body : JsVal) (email : String) (st s₁ : σ)
    (q : QueryResult)
    (hreq : ValidLogin W body email)
    (hlookup : W.selectUser loginColumns (str (W.toLowerCase email)) st = (.ok q, s₁))
    (hfound : q.error.truthy = false ∧ q.data.truthy = true)
    (hinactive : q.data.get "is_active" = bool false) :
    (postLogin W cfg nodeEnv body st).outcome = .sent ⟨num 403,
        obj [("status", str "error"), ("code", num 403),
          ("message", str "Account is disabled. Contact support.")]⟩
    ∧ (∀ payload, Call.generateToken payload ∉ (postLogin W cfg nodeEnv body st).calls)
    ∧ (postLogin W cfg nodeEnv body st).calls
        = [Call.selectUser loginColumns (str (W.toLowerCase email))] := by
  have e := postLogin_eq_try W cfg nodeEnv body st email hreq.configured
    hreq.emailField hreq.emailValid hreq.passwordPresent
  have hcalls : (postLogin W cfg nodeEnv body st).calls
      = [Call.selectUser loginColumns (str (W.toLowerCase email))] := by
    rw [e]
    simp [loginTry, callToLowerCase, hlookup, hfound.1, hfound.2, hinactive, catchAll]
  refine ⟨?_, ?_, hcalls⟩
  · rw [e]
    simp [loginTry, callToLowerCase, hlookup, hfound.1, hfound.2, hinactive, catchAll,
      errorResponse, errorBody]
  · intro payload
    rw [hcalls]
    simp

/-- C2 at a concrete request of the reference world: the disabled account with its
correct password. -/
theorem login_inactive_user_gets_no_token_witness :
    (postLogin memWorld defaultJwtConfig none
        (credentials "user@example.com" "Strong1!") disabledState).outcome
      = .sent ⟨num 403, obj [("status", str "error"), ("code", num 403),
          ("message", str "Account is disabled. Contact support.")]⟩
    ∧ (∀ payload, Call.generateToken payload ∉ (postLogin memWorld defaultJwtConfig none
        (credentials "user@example.com" "Strong1!") disabledState).calls)
    ∧ (postLogin memWorld defaultJwtConfig none
        (credentials "user@example.com" "Strong1!") disabledState).calls
        = [Call.selectUser loginColumns (str "user@example.com")] :=
  login_inactive_user_gets_no_token memWorld defaultJwtConfig none
    (credentials "user@example.com" "Strong1!") "user@example.com" disabledState _ _
    ⟨rfl, rfl, by decide, rfl⟩ rfl ⟨rfl, rfl⟩ rfl

/-- C3: `isValidPassword(s)` is true only if `s` has length at least 8 and holds a
lowercase letter, an uppercase letter, a digit and one of `@$!%*?&`; a string that
misses one of the five conditions is rejected. `weakpass` is rejected and
`Strong1!` is accepted. -/
theorem isValidPassword_only_if (s : String) :
    (isValidPassword (str s) = true →
      8 ≤ jsLength s ∧ (∃ c ∈ s.data, isLowerAZ c = true)
        ∧ (∃ c ∈ s.data, isUpperAZ c = true) ∧ (∃ c ∈ s.data, isDigit09 c = true)
        ∧ (∃ c ∈ s.data, isSpecial c = true))
    ∧ ((jsLength s < 8 ∨ (∀ c ∈ s.data, isLowerAZ c = false)
        ∨ (∀ c ∈ s.data, isUpperAZ c = false) ∨ (∀ c ∈ s.data, isDigit09 c = false)
        ∨ (∀ c ∈ s.data, isSpecial c = false)) → isValidPassword (str s) = false)
    ∧ isValidPassword (str "weakpass") = false
    ∧ isValidPassword (str "Strong1!") = true := by
  have key : isValidPassword (str s) = true →
      8 ≤ jsLength s ∧ (∃ c ∈ s.data, isLowerAZ c = true)
        ∧ (∃ c ∈ s.data, isUpperAZ c = true) ∧ (∃ c ∈ s.data, isDigit09 c = true)
        ∧ (∃ c ∈ s.data, isSpecial c = true) := by
    intro h
    obtain ⟨hlen, hall, hl, hu, hd, hs⟩ := passwordRegexTest_sound s.data h
    have hjs : jsLength s = s.data.length := jsLength_eq_length s.data hall
    exact ⟨by omega, hl, hu, hd, hs⟩
  refine ⟨key, ?_, by decide, by decide⟩
  intro hfail
  cases hv : isValidPassword (str s) with
  | false => rfl
  | true =>
    obtain ⟨hlen, ⟨a, ha, hla⟩, ⟨b, hb, hub⟩, ⟨d, hd, hdd⟩, ⟨e, he, hse⟩⟩ := key hv
    rcases hfail with h | h | h | h | h
    · omega
    · rw [h a ha] at hla; exact absurd hla (by decide)
    · rw [h b hb] at hub; exact absurd hub (by decide)
    · rw [h d hd] at hdd; exact absurd hdd (by decide)
    · rw [h e he] at hse; exact absurd hse (by decide)

/-- C4, as the code has it: for every serializable plain-object claim set without
the registered claims `iat`, `exp` and `nbf`, under a configuration with a positive
validity window, `verifyToken(generateToken(c))` at the clock reading of the issue
succeeds and returns the claims of `c` unchanged and in order, followed by
`iat = floor(now / 1000)` and `exp = iat + window`. -/
theorem verifyToken_generateToken_roundtrip (hmac : String → JsVal → JsVal → String)
    (cfg : JwtConfig) (fields : List (String × JsVal)) (now window : Int)
    (hser : jsonClone (obj fields) = obj fields)
    (hiat : hasKey fields "iat" = false) (hexp : hasKey fields "exp" = false)
    (hnbf : hasKey fields "nbf" = false)
    (hwin : cfg.expiresIn = some window) (hpos : 0 < window) :
    verifyGenerated hmac cfg (obj fields) now
      = .ok (obj (fields ++ [("iat", num (Int.fdiv now 1000)),
          ("exp", num (Int.fdiv now 1000 + window))])) := by
  have hclone := jsonCloneFields_of_clone fields hser
  have hexp' : hasKey (fields ++ [("iat", num (Int.fdiv now 1000))]) "exp" = false := by
    rw [hasKey_append, hexp]; rfl
  have hpayload : jsonClone (obj (setField (setField fields "iat" (num (Int.fdiv now 1000)))
      "exp" (num (Int.fdiv now 1000 + window))))
      = obj (fields ++ [("iat", num (Int.fdiv now 1000)),
          ("exp", num (Int.fdiv now 1000 + window))]) := by
    rw [setField_of_not_hasKey fields "iat" _ hiat, setField_of_not_hasKey _ "exp" _ hexp']
    simp [jsonClone, jsonCloneFields_append, hclone, jsonCloneFields]
  have hsign : generateToken hmac cfg (obj fields) now
      = .ok (mkToken hmac cfg.secret jwtHeader
          (obj (fields ++ [("iat", num (Int.fdiv now 1000)),
            ("exp", num (Int.fdiv now 1000 + window))]))) := by
    simp [generateToken, jwtSign, claimIsNumberIfPresent, hiat, hexp, hnbf,
      lookupField_of_not_hasKey fields "exp" hexp, lookupField_of_not_hasKey fields "iat" hiat,
      orElse, hwin, hpayload]
  have hnbf' : lookupField (fields ++ [("iat", num (Int.fdiv now 1000)),
      ("exp", num (Int.fdiv now 1000 + window))]) "nbf" = undefined := by
    rw [lookupField_append_of_not_hasKey _ _ _ hnbf]; rfl
  have hexp'' : lookupField (fields ++ [("iat", num (Int.fdiv now 1000)),
      ("exp", num (Int.fdiv now 1000 + window))]) "exp" = num (Int.fdiv now 1000 + window) := by
    rw [lookupField_append_of_not_hasKey _ _ _ hexp]; rfl
  simp [verifyGenerated, hsign, verifyToken, jwtVerify, mkToken, jwtParts, jwtHeader, JsVal.get,
    lookupField, isString, getProp, isNullish, hnbf', hexp'', bind, Except.bind, pure,
    Except.pure, not_le.mpr hpos]

/-- C4, as the code has it, at the claim set `{ id: 1, role: 'student' }`. -/
theorem verifyToken_generateToken_roundtrip_witness :
    verifyGenerated memWorld.hmac defaultJwtConfig
        (obj [("id", num 1), ("role", str "student")]) 1700000000000
      = .ok (obj ([("id", num 1), ("role", str "student")] ++
          [("iat", num (Int.fdiv 1700000000000 1000)),
            ("exp", num (Int.fdiv 1700000000000 1000 + 604800))])) :=
  verifyToken_generateToken_roundtrip memWorld.hmac defaultJwtConfig
    [("id", num 1), ("role", str "student")] 1700000000000 604800 rfl rfl rfl rfl rfl
    (by decide)

/-- C4 as stated fails: for the claim set `{ id: 1 }` the verified claims are
`{ id: 1, iat, exp }`, not the input claims. A claim set that defines `exp` is not
signed at all, one whose `nbf` lies ahead or whose `iat` lies far back does not
verify, and under a validity window of zero the token is expired at once. -/
theorem verifyToken_generateToken_not_identity :
    verifyGenerated memWorld.hmac defaultJwtConfig (obj [("id", num 1)]) 1700000000000
        = .ok (obj [("id", num 1), ("iat", num 1700000000), ("exp", num 1700604800)])
    ∧ verifyGenerated memWorld.hmac defaultJwtConfig (obj [("id", num 1)]) 1700000000000
        ≠ .ok (obj [("id", num 1)])
    ∧ verifyGenerated memWorld.hmac defaultJwtConfig
        (obj [("id", num 1), ("exp", num 1800000000)]) 1700000000000
        = .error (mkError "Error" "Failed to generate authentication token")
    ∧ verifyGenerated memWorld.hmac defaultJwtConfig
        (obj [("id", num 1), ("nbf", num 1800000000)]) 1700000000000
        = .error (mkError "NotBeforeError" "jwt not active")
    ∧ verifyGenerated memWorld.hmac defaultJwtConfig
        (obj [("id", num 1), ("iat", num 1000)]) 1700000000000
        = .error (mkError "Error" "Token has expired")
    ∧ verifyGenerated memWorld.hmac ⟨"secret", some 0⟩ (obj [("id", num 1)]) 1700000000000
        = .error (mkError "Error" "Token has expired") := by
  have h : verifyGenerated memWorld.hmac defaultJwtConfig (obj [("id", num 1)]) 1700000000000
      = .ok (obj [("id", num 1), ("iat", num 1700000000), ("exp", num 1700604800)]) := rfl
  refine ⟨h, ?_, rfl, rfl, rfl, rfl⟩
  rw [h]
  simp

/-- C5: `isTokenExpired` is `true` for a token that does not decode, for claims
without a truthy `exp`, and for a numeric `exp` with `exp * 1000 < now`; it depends
on the decoded claims and the clock only. At the instant `exp * 1000 = now`,
however, it answers `false` although the expiry is not in the future, while
`verifyToken` rejects the same token at the same instant as expired. -/
theorem isTokenExpired_false_at_expiry_instant :
    (∀ (parseNum : String → Option Int) (token : JsVal) (now : Int),
      jwtParts token = none → isTokenExpired parseNum token now = true)
    ∧ (∀ (parseNum : String → Option Int) (token : JsVal) (now : Int),
      ((jwtDecode token).get "exp").truthy = false → isTokenExpired parseNum token now = true)
    ∧ (∀ (parseNum : String → Option Int) (token : JsVal) (now e : Int),
      (jwtDecode token).truthy = true → (jwtDecode token).get "exp" = num e → e ≠ 0 →
        (isTokenExpired parseNum token now = true ↔ e * 1000 < now))
    ∧ (∀ (parseNum : String → Option Int) (t₁ t₂ : JsVal) (now : Int),
      jwtDecode t₁ = jwtDecode t₂ →
        isTokenExpired parseNum t₁ now = isTokenExpired parseNum t₂ now)
    ∧ isTokenExpired memWorld.parseNum
        (mkToken memWorld.hmac defaultJwtConfig.secret jwtHeader
          (obj [("id", num 1), ("iat", num 1699395200), ("exp", num 1700000000)]))
        1700000000000 = false
    ∧ ¬ ((1700000000 : Int) * 1000 > 1700000000000)
    ∧ verifyToken memWorld.hmac defaultJwtConfig
        (mkToken memWorld.hmac defaultJwtConfig.secret jwtHeader
          (obj [("id", num 1), ("iat", num 1699395200), ("exp", num 1700000000)]))
        1700000000000 = .error (mkError "Error" "Token has expired") := by
  refine ⟨?_, ?_, ?_, ?_, rfl, by decide, rfl⟩
  · intro parseNum token now h
    simp [isTokenExpired, jwtDecode, h]
  · intro parseNum token now h
    simp [isTokenExpired, h]
  · intro parseNum token now e ht he hne
    have hexp : (num e).truthy = true := by simp [truthy, hne]
    simp [isTokenExpired, ht, he, hexp, jsToNumber, numLt]
  · intro parseNum t₁ t₂ now h
    simp [isTokenExpired, h]

/-- C6, as the code has it: for a login that finds an active user, whose password
verifies and whose token is generated, the response is 200 with the token and the
public user projection whenever the last-login update resolves, whatever it resolves
to, an error result included; when the update throws, the `catch` of the handler
answers 500 `Login failed. Please try again later.`. -/
theorem login_response_ignores_update_result {σ : Type} (W : World σ) (cfg : JwtConfig)
    (nodeEnv : Option String) (body : JsVal) (email : String) (st s₁ s₂ : σ)
    (q : QueryResult) (token : JsVal)
    (hreq : ValidLogin W body email)
    (hlookup : W.selectUser loginColumns (str (W.toLowerCase email)) st = (.ok q, s₁))
    (hfound : q.error.truthy = false ∧ q.data.truthy = true)
    (hactive : (q.data.get "is_active").truthy = true)
    (hmatch : W.comparePassword (body.get "password") (q.data.get "password") s₁
      = (.ok true, s₂))
    (htoken : generateToken W.hmac cfg (authClaims q.data) (W.dateNow s₂) = .ok token) :
    (∀ (result : QueryResult) (s₃ : σ),
      W.updateUser (obj [("last_login", str (W.isoNow s₂))]) (q.data.get "id") s₂
          = (.ok result, s₃) →
        (postLogin W cfg nodeEnv body st).outcome = .sent ⟨num 200,
          obj [("status", str "success"),
            ("data", obj [("token", token),
              ("user", obj [("id", q.data.get "id"), ("email", q.data.get "email"),
                ("name", q.data.get "name"), ("role", q.data.get "role")])])]⟩)
    ∧ (∀ (err : JsVal) (s₃ : σ),
      W.updateUser (obj [("last_login", str (W.isoNow s₂))]) (q.data.get "id") s₂
          = (.error err, s₃) →
        (postLogin W cfg nodeEnv body st).outcome = .sent ⟨num 500,
          obj [("status", str "error"), ("code", num 500),
            ("message", str "Login failed. Please try again later.")]⟩) := by
  have e := postLogin_eq_try W cfg nodeEnv body st email hreq.configured
    hreq.emailField hreq.emailValid hreq.passwordPresent
  constructor
  · intro result s₃ hupd
    rw [e]
    simp [loginTry, callToLowerCase, hlookup, hfound.1, hfound.2, hactive, hmatch, htoken,
      hupd, catchAll, loginSuccess, publicUser]
  · intro err s₃ hupd
    rw [e]
    simp [loginTry, callToLowerCase, hlookup, hfound.1, hfound.2, hactive, hmatch, htoken,
      hupd, catchAll, errorResponse, errorBody]

/-- C6, as the code has it, at a request of the reference world whose store answers
the update with an error result: the login is answered 200. -/
theorem login_response_ignores_update_result_witness :
    failingUpdateWorld.updateUser (obj [("last_login", str "1700000000060")]) (num 1)
        { registeredState with clock := registeredState.clock + memLatency }
      = (.ok ⟨null, storeFailure⟩, { registeredState with clock := registeredState.clock + memLatency })
    ∧ (postLogin failingUpdateWorld defaultJwtConfig none
        (credentials "user@example.com" "Strong1!") registeredState).outcome
      = .sent ⟨num 200,
          obj [("status", str "success"),
            ("data", obj [("token", mkToken memWorld.hmac defaultJwtConfig.secret jwtHeader
                (obj [("id", num 1), ("email", str "user@example.com"),
                  ("role", str "student"), ("name", str "Ann"), ("type", str "auth"),
                  ("iat", num 1700000000), ("exp", num 1700604800)])),
              ("user", obj [("id", num 1), ("email", str "user@example.com"),
                ("name", str "Ann"), ("role", str "student")])])]⟩ :=
  ⟨rfl, (login_response_ignores_update_result failingUpdateWorld defaultJwtConfig none
    (credentials "user@example.com" "Strong1!") "user@example.com" registeredState _ _ _ _
    ⟨rfl, rfl, by decide, rfl⟩ rfl ⟨rfl, rfl⟩ rfl rfl rfl).1 _ _ rfl⟩

/-- C6 as stated fails: in the reference world whose store throws on the update, the
login of the registered, active user with the correct password runs through the
password check and the token generation and is answered 500; the same request is
answered 200 when the update resolves. A configuration whose validity window the
library cannot read fails the same login at the token generation. -/
theorem login_fails_when_update_throws :
    (postLogin throwingUpdateWorld defaultJwtConfig none
        (credentials "user@example.com" "Strong1!") registeredState).outcome
      = .sent ⟨num 500, obj [("status", str "error"), ("code", num 500),
          ("message", str "Login failed. Please try again later.")]⟩
    ∧ (postLogin throwingUpdateWorld defaultJwtConfig none
        (credentials "user@example.com" "Strong1!") registeredState).calls
      = [Call.selectUser loginColumns (str "user@example.com"),
          Call.comparePassword (str "Strong1!") (str "hashed:Strong1!"),
          Call.generateToken (obj [("id", num 1), ("email", str "user@example.com"),
            ("role", str "student"), ("name", str "Ann"), ("type", str "auth")]),
          Call.updateUser (obj [("last_login", str "1700000000060")]) (num 1),
          Call.consoleError "Login error:" storeFailure]
    ∧ (∃ token user, (postLogin memWorld defaultJwtConfig none
        (credentials "user@example.com" "Strong1!") registeredState).outcome
      = .sent ⟨num 200, obj [("status", str "success"),
          ("data", obj [("token", token), ("user", user)])]⟩)
    ∧ (postLogin memWorld ⟨"secret", none⟩ none
        (credentials "user@example.com" "Strong1!") registeredState).outcome
      = .sent ⟨num 500, obj [("status", str "error"), ("code", num 500),
          ("message", str "Login failed. Please try again later.")]⟩ :=
  ⟨rfl, rfl, ⟨_, _, rfl⟩, rfl⟩

/-- C7, as the code has it: for a register request with valid email, password and
name whose pre-check finds no user and whose insert the store rejects with an error
result, a uniqueness conflict included, the insert error is logged and thrown, and
the response is 500 `Registration failed. Please try again later.`, with no token
generated. The 409 `Email already registered. Please use another email or login.`
is the answer of the pre-check alone. -/
theorem register_insert_error_answers_500 {σ : Type} (W : World σ) (cfg : JwtConfig)
    (nodeEnv : Option String) (body : JsVal) (rawEmail : String) (st s₁ s₂ s₃ : σ)
    (existing inserted : QueryResult) (hashed : JsVal)
    (hreq : ValidRegistration W body rawEmail)
    (hpre : W.selectUser ["id"] (str (normalizedEmail W rawEmail)) st = (.ok existing, s₁))
    (hfree : existing.data.truthy = false)
    (hhash : W.hashPassword (body.get "password") s₁ = (.ok hashed, s₂))
    (hins : W.insertUser (newUserRow (str (normalizedEmail W rawEmail)) hashed
        (sanitizeInput (body.get "name")) (W.isoNow s₂)) registerColumns s₂
      = (.ok inserted, s₃))
    (hrejected : inserted.error.truthy = true) :
    (postRegister W cfg nodeEnv body st).outcome = .sent ⟨num 500,
        obj [("status", str "error"), ("code", num 500),
          ("message", str "Registration failed. Please try again later.")]⟩
    ∧ (postRegister W cfg nodeEnv body st).calls
      = [Call.selectUser ["id"] (str (normalizedEmail W rawEmail)),
          Call.hashPassword (body.get "password"),
          Call.insertUser (newUserRow (str (normalizedEmail W rawEmail)) hashed
            (sanitizeInput (body.get "name")) (W.isoNow s₂)) registerColumns,
          Call.consoleError "User creation error:" inserted.error,
          Call.consoleError "Registration error:" inserted.error]
    ∧ (∀ (st' s' : σ) (found : QueryResult),
        W.selectUser ["id"] (str (normalizedEmail W rawEmail)) st' = (.ok found, s') →
        found.data.truthy = true →
        (postRegister W cfg nodeEnv body st').outcome = .sent ⟨num 409,
          obj [("status", str "error"), ("code", num 409),
            ("message", str "Email already registered. Please use another email or login.")]⟩) := by
  refine ⟨?_, ?_, ?_⟩
  · rw [postRegister_eq_try W cfg nodeEnv body st rawEmail hreq]
    simp [registerTry, hpre, hfree, hhash, hins, hrejected, catchAll, errorResponse, errorBody]
  · rw [postRegister_eq_try W cfg nodeEnv body st rawEmail hreq]
    simp [registerTry, hpre, hfree, hhash, hins, hrejected, catchAll]
  · intro st' s' found hsel hfound
    rw [postRegister_eq_try W cfg nodeEnv body st' rawEmail hreq]
    simp [registerTry, hsel, hfound, catchAll, errorResponse, errorBody]

/-- C7, as the code has it, at a request of the reference world in which a rival
registration of the same email lands between the pre-check and the insert. -/
theorem register_insert_error_answers_500_witness :
    (postRegister racingWorld defaultJwtConfig none
        (registration "User@example.com" "Strong1!" "Cleo") emptyState).outcome
      = .sent ⟨num 500, obj [("status", str "error"), ("code", num 500),
          ("message", str "Registration failed. Please try again later.")]⟩ :=
  (register_insert_error_answers_500 racingWorld defaultJwtConfig none
    (registration "User@example.com" "Strong1!" "Cleo") "User@example.com"
    emptyState _ _ _ _ _ _
    ⟨rfl, rfl, by decide, by decide, rfl, by decide, rfl, by decide, by decide⟩
    rfl rfl rfl rfl rfl).1

/-- C7 as stated fails: in the reference world, `USER@Example.com` registers while a
rival registration of `user@example.com` lands during the password hash. The
pre-check finds no user, the insert is rejected as a duplicate, and the response is
500, not the 409 of the pre-check. -/
theorem register_conflict_at_insert_is_not_409 :
    (postRegister racingWorld defaultJwtConfig none
        (registration "USER@Example.com" "Strong1!" "Ann") emptyState).outcome
      = .sent ⟨num 500, obj [("status", str "error"), ("code", num 500),
          ("message", str "Registration failed. Please try again later.")]⟩
    ∧ (postRegister racingWorld defaultJwtConfig none
        (registration "USER@Example.com" "Strong1!" "Ann") emptyState).outcome
      ≠ .sent ⟨num 409, obj [("status", str "error"), ("code", num 409),
          ("message", str "Email already registered. Please use another email or login.")]⟩
    ∧ (postRegister racingWorld defaultJwtConfig none
        (registration "USER@Example.com" "Strong1!" "Ann") emptyState).calls
      = [Call.selectUser ["id"] (str "user@example.com"),
          Call.hashPassword (str "Strong1!"),
          Call.insertUser (newUserRow (str "user@example.com") (str "hashed:Strong1!")
            (str "Ann") "1700000000020") registerColumns,
          Call.consoleError "User creation error:" uniqueViolation,
          Call.consoleError "Registration error:" uniqueViolation] := by
  have h : (postRegister racingWorld defaultJwtConfig none
      (registration "USER@Example.com" "Strong1!" "Ann") emptyState).outcome
      = .sent ⟨num 500, obj [("status", str "error"), ("code", num 500),
          ("message", str "Registration failed. Please try again later.")]⟩ := rfl
  refine ⟨h, ?_, rfl⟩
  rw [h]
  simp

/-- C8: register looks up and inserts `sanitize(email)` lowercased and login looks up
the lowercased email. Over a store that returns what register inserted, its update
query returning too, and a hasher for which `comparePassword(p, hashPassword(p))` is
true: for every email `e` without surrounding whitespace or HTML-sensitive
characters and every password `p` and name `n`, after `register(e, p, n)` is answered
201, `login(e', p)` for every `e'` that equals `e` up to letter case and passes the
format check runs exactly as the login of any other such spelling, and is answered
200 with the public projection of the registered user and a token: the signed claims
`{ id, email, role, name, type: 'auth', iat, exp }` of that user, which `verifyToken`
accepts at the clock reading of the issue when the validity window is positive. -/
theorem login_after_register_matches_any_case {σ : Type} (W : World σ) (cfg : JwtConfig)
    (envR envL : Option String) (e e' p n : String) (st : σ) (r : Response)
    (hstore : ReturnsInserted W) (hhasher : HasherVerifies W) (hupdate : UpdateResolves W)
    (hspace : hasNoSurroundingSpace e = true)
    (hplain : ∀ c ∈ e.data, isHtmlSensitive c = false)
    (hreg : (postRegister W cfg envR (registration e p n) st).outcome = .sent r)
    (h201 : r.status = num 201)
    (hcase : W.toLowerCase e' = W.toLowerCase e) (hvalid : W.isEmail e' = true) :
    Call.selectUser ["id"] (str (W.toLowerCase e))
        ∈ (postRegister W cfg envR (registration e p n) st).calls
    ∧ (∃ hashed createdAt,
        Call.insertUser (newUserRow (str (W.toLowerCase e)) hashed (sanitizeInput (str n))
            createdAt) registerColumns
          ∈ (postRegister W cfg envR (registration e p n) st).calls)
    ∧ Call.selectUser loginColumns (str (W.toLowerCase e'))
        ∈ (postLogin W cfg envL (credentials e' p)
            (postRegister W cfg envR (registration e p n) st).state).calls
    ∧ (∀ e'' : String, W.toLowerCase e'' = W.toLowerCase e → W.isEmail e'' = true →
        postLogin W cfg envL (credentials e'' p)
            (postRegister W cfg envR (registration e p n) st).state
          = postLogin W cfg envL (credentials e' p)
            (postRegister W cfg envR (registration e p n) st).state)
    ∧ ∃ (id payload token : JsVal) (now span : Int),
        cfg.expiresIn = some span
        ∧ payload = jsonClone (obj [("id", id), ("email", str (W.toLowerCase e)),
            ("role", str "student"), ("name", sanitizeInput (str n)), ("type", str "auth"),
            ("iat", num (Int.fdiv now 1000)), ("exp", num (Int.fdiv now 1000 + span))])
        ∧ token = obj [("header", obj [("alg", str "HS256"), ("typ", str "JWT")]),
            ("payload", payload),
            ("signature", str (W.hmac cfg.secret
              (obj [("alg", str "HS256"), ("typ", str "JWT")]) payload))]
        ∧ (postLogin W cfg envL (credentials e' p)
            (postRegister W cfg envR (registration e p n) st).state).outcome
          = .sent ⟨num 200, obj [("status", str "success"),
              ("data", obj [("token", token),
                ("user", obj [("id", id), ("email", str (W.toLowerCase e)),
                  ("name", sanitizeInput (str n)), ("role", str "student")])])]⟩
        ∧ (0 < span → verifyToken W.hmac cfg token now = .ok payload) := by
  have hv := registration_valid_of_201 W cfg envR e p n st r hreg h201
  have heq := postRegister_eq_try W cfg envR (registration e p n) st e hv
  have hnorm : normalizedEmail W e = W.toLowerCase e := by
    have hs := sanitizeInput_of_plain e hspace hplain
    rw [sanitizeInput_str] at hs
    unfold normalizedEmail
    rw [JsVal.str.inj hs]
  rw [heq] at hreg
  obtain ⟨existing, s₁, hashed, s₂, inserted, s₃, token, h1, hfree, h2, h3, herr, h4, hrun⟩ :=
    registerTry_of_201 W cfg _ _ _ st r hreg h201
  rw [hnorm] at h1 h3 hrun heq
  have hgp : (registration e p n).get "password" = str p := rfl
  have hgn : (registration e p n).get "name" = str n := rfl
  rw [hgn] at h3 hrun heq
  rw [hgp] at h2
  rw [heq, hrun]
  obtain ⟨q, s₄, hsel, hqerr, hqdata, hqpw, hqact, hqmail, hqname, hqrole⟩ :=
    hstore _ _ _ _ _ _ _ _ h3 herr
  obtain ⟨s₅, hcmp⟩ := hhasher _ _ _ _ h2 s₄
  obtain ⟨span, hspan⟩ := generateToken_authClaims W.hmac cfg _ _ _ h4
  have htok := generateToken_authClaims_eq W.hmac cfg q.data (W.dateNow s₅) span hspan
  rw [hqmail, hqname, hqrole] at htok
  obtain ⟨result, s₆, hupd⟩ := hupdate (obj [("last_login", str (W.isoNow s₅))]) (q.data.get "id") s₅
  have hpw : ((credentials e' p).get "password").truthy = true := by
    have := hv.passwordPresent
    rw [hgp] at this
    exact this
  have hlogin := postLogin_eq_try W cfg envL (credentials e' p) s₃ e' hv.configured rfl
    hvalid hpw
  have hgp' : (credentials e' p).get "password" = str p := rfl
  rw [hqpw.symm] at hcmp
  have hact : (q.data.get "is_active").truthy = true := by rw [hqact]; rfl
  refine ⟨by simp, ⟨hashed, W.isoNow s₂, by simp⟩, ?_, ?_, q.data.get "id", _, _,
    W.dateNow s₅, span, hspan, rfl, rfl, ?_, ?_⟩
  · rw [hlogin, hgp']
    simp [loginTry, callToLowerCase, hcase, hsel, hqerr, hqdata, hact, hcmp, htok, hupd, catchAll]
  · intro e'' hcase'' hvalid''
    have hpw'' : ((credentials e'' p).get "password").truthy = true := hpw
    rw [hlogin, postLogin_eq_try W cfg envL (credentials e'' p) s₃ e'' hv.configured rfl
      hvalid'' hpw'']
    have hgp'' : (credentials e'' p).get "password" = (credentials e' p).get "password" := rfl
    rw [hgp'', loginTry_same_lowercase W cfg e'' e' _ _ _ (hcase''.trans hcase.symm)]
  · rw [hlogin, hgp']
    simp [loginTry, callToLowerCase, hcase, hsel, hqerr, hqdata, hact, hcmp, htok, hupd, catchAll,
      loginSuccess, publicUser, hqmail, hqname, hqrole]
  · intro hpos
    rw [sanitizeInput_str]
    exact verifyToken_authToken W.hmac cfg _ _ _ _ _ _ hpos

/-- C8 in the reference world: `USER@Example.com` registers, `user@example.com` logs
in and is answered 200 with the projection of the registered user and the token
signed over that user's claims, which `verifyToken` accepts. -/
theorem login_after_register_matches_any_case_witness :
    (∃ (id payload token : JsVal) (now span : Int),
        defaultJwtConfig.expiresIn = some span
        ∧ payload = jsonClone (obj [("id", id),
            ("email", str (memWorld.toLowerCase "USER@Example.com")),
            ("role", str "student"), ("name", sanitizeInput (str "Ann")), ("type", str "auth"),
            ("iat", num (Int.fdiv now 1000)), ("exp", num (Int.fdiv now 1000 + span))])
        ∧ token = obj [("header", obj [("alg", str "HS256"), ("typ", str "JWT")]),
            ("payload", payload),
            ("signature", str (memWorld.hmac defaultJwtConfig.secret
              (obj [("alg", str "HS256"), ("typ", str "JWT")]) payload))]
        ∧ (postLogin memWorld defaultJwtConfig none
            (credentials "user@example.com" "Strong1!")
            (postRegister memWorld defaultJwtConfig none
              (registration "USER@Example.com" "Strong1!" "Ann") emptyState).state).outcome
          = .sent ⟨num 200, obj [("status", str "success"),
              ("data", obj [("token", token),
                ("user", obj [("id", id),
                  ("email", str (memWorld.toLowerCase "USER@Example.com")),
                  ("name", sanitizeInput (str "Ann")), ("role", str "student")])])]⟩
        ∧ (0 < span → verifyToken memWorld.hmac defaultJwtConfig token now = .ok payload))
    ∧ (postLogin memWorld defaultJwtConfig none (credentials "user@example.com" "Strong1!")
        (postRegister memWorld defaultJwtConfig none
          (registration "USER@Example.com" "Strong1!" "Ann") emptyState).state).outcome
      = .sent ⟨num 200, obj [("status", str "success"),
          ("data", obj [("token", obj [("header", obj [("alg", str "HS256"), ("typ", str "JWT")]),
              ("payload", obj [("id", num 1), ("email", str "user@example.com"),
                ("role", str "student"), ("name", str "Ann"), ("type", str "auth"),
                ("iat", num 1700000000), ("exp", num 1700604800)]),
              ("signature", str "your-secret-key-change-in-production")]),
            ("user", obj [("id", num 1), ("email", str "user@example.com"),
              ("name", str "Ann"), ("role", str "student")])])]⟩ :=
  ⟨(login_after_register_matches_any_case memWorld defaultJwtConfig none none
      "USER@Example.com" "user@example.com" "Strong1!" "Ann" emptyState _
      (returnsInserted_of_mem memWorld rfl rfl) (hasherVerifies_of_mem memWorld rfl rfl)
      updateResolves_memWorld (by decide) (by decide) rfl rfl (by decide)
      (by decide)).2.2.2.2, rfl⟩

/-- C9: on the login path where the lookup yields no user or an error, the handler
waits `loginDelay elapsed = max(0, 1000 - elapsed)` milliseconds, `elapsed` being the
clock after the lookup minus the recorded start time, and then sends the 401. For
every integer `elapsed` the delay is non-negative, is 0 exactly when
`elapsed >= 1000`, and `elapsed + delay >= 1000`: the wait ends no earlier than
1000 ms after the start time. -/
theorem login_not_found_waits_out_the_second {σ : Type} (W : World σ) (cfg : JwtConfig)
    (nodeEnv : Option String) (body : JsVal) (email : String) (st s₁ : σ) (q : QueryResult)
    (hreq : ValidLogin W body email)
    (hlookup : W.selectUser loginColumns (str (W.toLowerCase email)) st = (.ok q, s₁))
    (hnone : q.error.truthy = true ∨ q.data.truthy = false) :
    postLogin W cfg nodeEnv body st
      = ⟨.sent (errorResponse 401 "Invalid email or password"),
          [Call.selectUser loginColumns (str (W.toLowerCase email)),
            Call.sleep (loginDelay (W.dateNow s₁ - W.dateNow st))],
          W.sleep (loginDelay (W.dateNow s₁ - W.dateNow st)) s₁⟩
    ∧ loginDelay (W.dateNow s₁ - W.dateNow st) = max 0 (1000 - (W.dateNow s₁ - W.dateNow st))
    ∧ W.dateNow st + 1000 ≤ W.dateNow s₁ + loginDelay (W.dateNow s₁ - W.dateNow st)
    ∧ ∀ elapsed : Int, 0 ≤ loginDelay elapsed ∧ (loginDelay elapsed = 0 ↔ 1000 ≤ elapsed)
        ∧ 1000 ≤ elapsed + loginDelay elapsed := by
  have harith : ∀ elapsed : Int, 0 ≤ loginDelay elapsed
      ∧ (loginDelay elapsed = 0 ↔ 1000 ≤ elapsed) ∧ 1000 ≤ elapsed + loginDelay elapsed := by
    intro elapsed
    unfold loginDelay
    refine ⟨le_max_left _ _, ?_, ?_⟩
    · constructor
      · intro h
        have := le_max_right 0 (1000 - elapsed)
        omega
      · intro h
        exact max_eq_left (by omega)
    · have := le_max_right 0 (1000 - elapsed)
      omega
  refine ⟨?_, rfl, ?_, harith⟩
  · rw [postLogin_eq_try W cfg nodeEnv body st email hreq.configured
      hreq.emailField hreq.emailValid hreq.passwordPresent]
    rcases hnone with h | h <;>
      simp [loginTry, callToLowerCase, hlookup, h, catchAll]
  · have := (harith (W.dateNow s₁ - W.dateNow st)).2.2
    omega

/-- C9 at a concrete request of the reference world: the lookup takes 20 ms, the
handler waits the remaining 980 ms. -/
theorem login_not_found_waits_out_the_second_witness :
    (postLogin memWorld defaultJwtConfig none
        (credentials "nobody@example.com" "Strong1!") emptyState).calls
      = [Call.selectUser loginColumns (str "nobody@example.com"), Call.sleep 980]
    ∧ (postLogin memWorld defaultJwtConfig none
        (credentials "nobody@example.com" "Strong1!") emptyState).state.clock
      = emptyState.clock + 1000 := by
  have h := login_not_found_waits_out_the_second memWorld defaultJwtConfig none
    (credentials "nobody@example.com" "Strong1!") "nobody@example.com" emptyState _ _
    ⟨rfl, rfl, by decide, rfl⟩ rfl (Or.inl rfl)
  rw [h.1]
  exact ⟨rfl, rfl⟩

/-- C10, as the code has it: when `NODE_ENV` is `production` the response of
`errorHandler` carries the fixed message and nothing of `err.message`, so two errors
with the same status get the same response; under every value other than
`development` the body has the three fields `status`, `code`, `message` and no stack.
Under every value other than `production` the message is
`err.message || 'Internal Server Error'`, and under `development` the body also
carries `err.stack`. -/
theorem errorHandler_generic_only_in_production (err₁ err₂ : JsVal)
    (h₁ : err₁.isNullish = false) (h₂ : err₂.isNullish = false)
    (hstatus : err₁.get "status" = err₂.get "status") :
    errorHandler (some "production") err₁ = errorHandler (some "production") err₂
    ∧ errorHandler (some "production") err₁
      = .ok ⟨(err₁.get "status").orElse (num 500),
          obj [("status", str "error"), ("code", (err₁.get "status").orElse (num 500)),
            ("message", str "An error occurred. Please try again later.")]⟩
    ∧ (∀ nodeEnv : Option String, nodeEnv ≠ some "development" →
        ∃ message, errorHandler nodeEnv err₁
          = .ok ⟨(err₁.get "status").orElse (num 500),
              obj [("status", str "error"), ("code", (err₁.get "status").orElse (num 500)),
                ("message", message)]⟩)
    ∧ (∀ nodeEnv : Option String, nodeEnv ≠ some "production" →
        ∃ resp, errorHandler nodeEnv err₁ = .ok resp
          ∧ resp.body.get "message"
            = (err₁.get "message").orElse (str "Internal Server Error"))
    ∧ errorHandler (some "development") err₁
      = .ok ⟨(err₁.get "status").orElse (num 500),
          obj [("status", str "error"), ("code", (err₁.get "status").orElse (num 500)),
            ("message", (err₁.get "message").orElse (str "Internal Server Error")),
            ("stack", err₁.get "stack")]⟩ := by
  refine ⟨?_, ?_, ?_, ?_, ?_⟩
  · simp [errorHandler, getProp, h₁, h₂, hstatus, bind, Except.bind, pure, Except.pure]
  · simp [errorHandler, getProp, h₁, bind, Except.bind, pure, Except.pure]
  · intro nodeEnv hdev
    refine ⟨if nodeEnv = some "production" then str "An error occurred. Please try again later."
      else (err₁.get "message").orElse (str "Internal Server Error"), ?_⟩
    simp [errorHandler, getProp, h₁, hdev, bind, Except.bind, pure, Except.pure]
  · intro nodeEnv hprod
    refine ⟨⟨(err₁.get "status").orElse (num 500),
      obj ([("status", str "error"), ("code", (err₁.get "status").orElse (num 500)),
        ("message", (err₁.get "message").orElse (str "Internal Server Error"))]
        ++ (if nodeEnv = some "development" then [("stack", err₁.get "stack")] else []))⟩,
      ?_, ?_⟩
    · simp [errorHandler, getProp, h₁, hprod, bind, Except.bind, pure, Except.pure]
    · simp [JsVal.get, lookupField]
  · simp [errorHandler, getProp, h₁, bind, Except.bind, pure, Except.pure]

/-- C10, as the code has it, at two errors without a status: under `production`
both are answered with the same generic body. -/
theorem errorHandler_generic_only_in_production_witness :
    errorHandler (some "production")
        (obj [("message", str "relation users does not exist"), ("stack", str "at query")])
      = errorHandler (some "production") (obj [("message", str "fetch failed")]) :=
  (errorHandler_generic_only_in_production
    (obj [("message", str "relation users does not exist"), ("stack", str "at query")])
    (obj [("message", str "fetch failed")]) rfl rfl rfl).1

/-- C10 as stated fails: with `NODE_ENV` unset or set to `test`, neither being
`development`, the response message is `err.message`, and two errors with the same
status 500 get different bodies. -/
theorem errorHandler_leaks_message_outside_production :
    errorHandler (some "test")
        (obj [("message", str "relation users does not exist"), ("stack", str "at query")])
      = .ok ⟨num 500, obj [("status", str "error"), ("code", num 500),
          ("message", str "relation users does not exist")]⟩
    ∧ errorHandler (some "test") (obj [("message", str "fetch failed")])
      = .ok ⟨num 500, obj [("status", str "error"), ("code", num 500),
          ("message", str "fetch failed")]⟩
    ∧ errorHandler (some "test")
        (obj [("message", str "relation users does not exist"), ("stack", str "at query")])
      ≠ errorHandler (some "test") (obj [("message", str "fetch failed")])
    ∧ errorHandler none
        (obj [("message", str "relation users does not exist"), ("stack", str "at query")])
      = .ok ⟨num 500, obj [("status", str "error"), ("code", num 500),
          ("message", str "relation users does not exist")]⟩ := by
  have a : errorHandler (some "test")
      (obj [("message", str "relation users does not exist"), ("stack", str "at query")])
      = .ok ⟨num 500, obj [("status", str "error"), ("code", num 500),
          ("message", str "relation users does not exist")]⟩ := by rfl
  have b : errorHandler (some "test") (obj [("message", str "fetch failed")])
      = .ok ⟨num 500, obj [("status", str "error"), ("code", num 500),
          ("message", str "fetch failed")]⟩ := by rfl
  refine ⟨a, b, ?_, rfl⟩
  rw [a, b]
  simp

/-- C11: every row that register inserts carries the sanitized name, which passed
the two comparisons `name.length < 3` and `name.length > 100`; when that name is a
string its length lies in `[3, 100]`, and a request whose sanitized name has a
numeric length outside `[3, 100]`, email and password being valid, is answered 400
`Name must be between 3 and 100 characters` with no call made. A name that is a
number has no length, though: both comparisons are false, and the register request
with the name `42` is answered 201 after inserting the row with the name `42`. -/
theorem register_inserts_name_without_length :
    (∀ (σ : Type) (W : World σ) (cfg : JwtConfig) (nodeEnv : Option String) (body : JsVal)
        (st : σ) (row : JsVal) (columns : List String),
      Call.insertUser row columns ∈ (postRegister W cfg nodeEnv body st).calls →
        row.get "name" = sanitizeInput (body.get "name")
        ∧ numLt (jsToNumber W.parseNum ((row.get "name").get "length")) (some 3) = false
        ∧ numLt (some 100) (jsToNumber W.parseNum ((row.get "name").get "length")) = false
        ∧ ∀ s : String, row.get "name" = str s → 3 ≤ jsLength s ∧ jsLength s ≤ 100)
    ∧ (∀ (σ : Type) (W : World σ) (cfg : JwtConfig) (nodeEnv : Option String) (body : JsVal)
        (st : σ) (rawEmail : String) (n : Int),
      W.configured = true → body.get "email" = str rawEmail → rawEmail ≠ "" →
      W.isEmail (normalizedEmail W rawEmail) = true →
      (body.get "password").truthy = true → isValidPassword (body.get "password") = true →
      (body.get "name").truthy = true →
      (sanitizeInput (body.get "name")).get "length" = num n → (n < 3 ∨ 100 < n) →
        postRegister W cfg nodeEnv body st
          = ⟨.sent ⟨num 400, obj [("status", str "error"), ("code", num 400),
              ("message", str "Name must be between 3 and 100 characters")]⟩, [], st⟩)
    ∧ validateRequest ["email", "password", "name"]
        (obj [("email", str "user@example.com"), ("password", str "Strong1!"),
          ("name", num 42)]) = .ok none
    ∧ (sanitizeInput (num 42)).get "length" = undefined
    ∧ (postRegister memWorld defaultJwtConfig none
        (obj [("email", str "user@example.com"), ("password", str "Strong1!"),
          ("name", num 42)]) emptyState).calls
      = [Call.selectUser ["id"] (str "user@example.com"),
          Call.hashPassword (str "Strong1!"),
          Call.insertUser (newUserRow (str "user@example.com") (str "hashed:Strong1!")
            (num 42) "1700000000020") registerColumns,
          Call.generateToken (obj [("id", num 1), ("email", str "user@example.com"),
            ("role", str "student"), ("name", num 42), ("type", str "auth")])]
    ∧ (∃ token, (postRegister memWorld defaultJwtConfig none
        (obj [("email", str "user@example.com"), ("password", str "Strong1!"),
          ("name", num 42)]) emptyState).outcome
      = .sent ⟨num 201, obj [("status", str "success"),
          ("message", str "Account created successfully"),
          ("data", obj [("token", token),
            ("user", obj [("id", num 1), ("email", str "user@example.com"),
              ("name", num 42), ("role", str "student")])])]⟩) := by
  refine ⟨?_, ?_, rfl, rfl, rfl, ⟨_, rfl⟩⟩
  · intro σ W cfg nodeEnv body st row columns hmem
    have hh := route_calls nodeEnv _ _ body st _ hmem
    obtain ⟨⟨email, hashed, createdAt, hrow⟩, hshort, hlong⟩ :=
      registerHandler_insert W cfg body st row columns hh
    have hname : row.get "name" = sanitizeInput (body.get "name") := by
      rw [hrow]
      rfl
    rw [← hname] at hshort hlong
    refine ⟨hname, hshort, hlong, ?_⟩
    intro s hs
    rw [hs] at hshort hlong
    simp only [JsVal.get, if_true, jsToNumber, numLt, decide_eq_false_iff_not] at hshort hlong
    omega
  · intro σ W cfg nodeEnv body st rawEmail n hcfg hmail hpresent hvalid hpw hpwv hname hlen hout
    exact postRegister_name_out_of_bounds W cfg nodeEnv body st rawEmail n hcfg hmail hpresent
      hvalid hpw hpwv hname hlen hout

/-- C12: `isValidPassword(s)` is true exactly when `s` has length at least 8, every
character of `s` belongs to `[A-Za-z0-9@$!%*?&]`, and `s` holds a lowercase letter, an
uppercase letter, a digit and one of `@$!%*?&`. So a string with any other character
is rejected, even when it meets the length and the four class conditions:
`Strong1!#`, and likewise a space, a hyphen or a non-ASCII letter. -/
theorem isValidPassword_iff (s : String) :
    (isValidPassword (str s) = true ↔
      8 ≤ jsLength s ∧ (∀ c ∈ s.data, isPasswordChar c = true)
        ∧ (∃ c ∈ s.data, isLowerAZ c = true) ∧ (∃ c ∈ s.data, isUpperAZ c = true)
        ∧ (∃ c ∈ s.data, isDigit09 c = true) ∧ (∃ c ∈ s.data, isSpecial c = true))
    ∧ ((∃ c ∈ s.data, isPasswordChar c = false) → isValidPassword (str s) = false)
    ∧ isValidPassword (str "Strong1!#") = false
    ∧ (8 ≤ jsLength "Strong1!#" ∧ (∃ c ∈ "Strong1!#".data, isLowerAZ c = true)
        ∧ (∃ c ∈ "Strong1!#".data, isUpperAZ c = true)
        ∧ (∃ c ∈ "Strong1!#".data, isDigit09 c = true)
        ∧ (∃ c ∈ "Strong1!#".data, isSpecial c = true))
    ∧ isValidPassword (str "Strong 1!") = false
    ∧ isValidPassword (str "Strong-1!") = false
    ∧ isValidPassword (str "Ströng1!") = false := by
  have hiff : isValidPassword (str s) = true ↔
      8 ≤ jsLength s ∧ (∀ c ∈ s.data, isPasswordChar c = true)
        ∧ (∃ c ∈ s.data, isLowerAZ c = true) ∧ (∃ c ∈ s.data, isUpperAZ c = true)
        ∧ (∃ c ∈ s.data, isDigit09 c = true) ∧ (∃ c ∈ s.data, isSpecial c = true) := by
    constructor
    · intro h
      obtain ⟨hlen, hall, hl, hu, hd, hs⟩ := passwordRegexTest_sound s.data h
      have hjs : jsLength s = s.data.length := jsLength_eq_length s.data hall
      exact ⟨by omega, hall, hl, hu, hd, hs⟩
    · rintro ⟨hlen, hall, hl, hu, hd, hs⟩
      have hjs : jsLength s = s.data.length := jsLength_eq_length s.data hall
      exact passwordRegexTest_complete s.data (by omega) hall hl hu hd hs
  refine ⟨hiff, ?_, by decide, by decide, by decide, by decide, by decide⟩
  rintro ⟨c, hc, hbad⟩
  cases hv : isValidPassword (str s) with
  | false => rfl
  | true =>
    have := (hiff.mp hv).2.1 c hc
    rw [hbad] at this
    cases this

end Coddy
